import Mathlib

/-!
Verification of the notification-service event-orchestration core.

The definitions below are a shallow embedding of the repository's handler
and validation logic:

* `src/handlers/event_handler.py`   — `handle_pr_opened` and its helpers
  (`_normalize_repo_url`, `_repo_from_pr_url`, `_repo_name`,
  `_validate_notification_bundle`, `_has_devin_jira_content`,
  `_jira_bundle_error`, `_has_devin_slack_content`);
* `src/handlers/recovery_report.py` — `handle_recovery_complete`;
* `src/models/notification_event.py`, `src/models/jira_ticket.py` — rows;
* `src/schemas/events.py` — pydantic payload schemas;
* `src/clients/*.py` — external collaborators, modelled as capability
  interfaces whose outcomes are supplied by an environment record
  (`PrEnv` / `RecEnv`); every outbound call is logged in an action trace.

Python string operations used by the source are embedded explicitly
(`pyOr`, `pyStrip`, `pyRstripSlashes`, `pyRemoveSuffixGit`,
`pyReplaceFirst`, slicing `[:500]` as `pyTruncate`).  Python `str.strip`
and `str.lower` strip/convert the exotic-unicode cases slightly more
aggressively than `String.trim`/`String.toLower`; the source only ever
compares ASCII identifiers, where the two coincide.
-/

/-- Python `a or b` on strings: `b` when `a` is empty (falsy), else `a`. -/
def pyOr (a b : String) : String :=
  if a = "" then b else a

/-- ASCII whitespace stripped by Python `str.strip()`. -/
def pyIsSpace (c : Char) : Bool :=
  c = ' ' || c = '\t' || c = '\n' || c = '\r' || c.toNat = 11 || c.toNat = 12

/-- Python `s.strip()` (whitespace trim at both ends). -/
def pyStrip (s : String) : String :=
  ⟨((s.data.dropWhile pyIsSpace).reverse.dropWhile pyIsSpace).reverse⟩

/-- Python `s.lower()` (ASCII case fold; the source only compares ASCII). -/
def pyLower (s : String) : String :=
  ⟨s.data.map Char.toLower⟩

/-- Python `s.startswith(pat)`. -/
def pyStartsWith (s pat : String) : Bool :=
  pat.data.isPrefixOf s.data

/-- Python `s.endswith(pat)`. -/
def pyEndsWith (s pat : String) : Bool :=
  pat.data.isSuffixOf s.data

/-- Python `s.rstrip("/")`: drop every trailing `'/'`. -/
def pyRstripSlashes (s : String) : String :=
  ⟨(s.data.reverse.dropWhile (fun c => c = '/')).reverse⟩

/-- Python `s.removesuffix(".git")`: drop one trailing `".git"` if present. -/
def pyRemoveSuffixGit (s : String) : String :=
  if pyEndsWith s ".git" then ⟨s.data.take (s.data.length - 4)⟩ else s

/-- Python `s.split(sep)` for a one-character separator, on character
lists; keeps empty pieces, and splitting the empty string yields one
empty piece, exactly as in Python. -/
def listSplit (sep : Char) : List Char → List (List Char)
  | [] => [[]]
  | c :: rest =>
    let r := listSplit sep rest
    if c = sep then [] :: r
    else
      match r with
      | h :: t => (c :: h) :: t
      | [] => [[c]]

/-- Python `s.split("/")`. -/
def pySplitSlash (s : String) : List String :=
  (listSplit '/' s.data).map String.mk

/-- Replace the first occurrence of `pat` (non-empty in all uses) in a
character list, as Python `s.replace(pat, repl, 1)`. -/
def listReplaceFirst (pat repl : List Char) : List Char → List Char
  | [] => []
  | c :: rest =>
    if pat.isPrefixOf (c :: rest) then repl ++ (c :: rest).drop pat.length
    else c :: listReplaceFirst pat repl rest

/-- Python `s.replace(pat, repl, 1)` for non-empty `pat`. -/
def pyReplaceFirst (s pat repl : String) : String :=
  ⟨listReplaceFirst pat.data repl.data s.data⟩

/-- The character-list suffix following the first occurrence of `pat`,
`none` when `pat` does not occur: Python `s.split(pat, 1)[1]` guarded by
`pat in s`. -/
def afterSubstr (pat : List Char) : List Char → Option (List Char)
  | [] => if pat.isEmpty then some [] else none
  | c :: rest =>
    if pat.isPrefixOf (c :: rest) then some ((c :: rest).drop pat.length)
    else afterSubstr pat rest

/-- Python `pat in s` (substring containment). -/
def pyContains (s pat : String) : Bool :=
  (afterSubstr pat.data s.data).isSome

/-- Python `s[:n]` on a string (slice of the first `n` characters):
`src/handlers` stores sink error text as `str(exc)[:500]`. -/
def pyTruncate (n : Nat) (s : String) : String :=
  ⟨s.data.take n⟩

/-- Opaque JSON-ish dict: only construction and truthiness matter to the
orchestration core. -/
abbrev PyDict := List (String × String)

/-! ### Schemas (`src/schemas/events.py`) -/

/-- Schema `DevinContext` — consumed only by the (opaque) templates. -/
structure DevinContext where
  brief : String := ""
  mission : String := ""
  affected_endpoints : List String := []
  technical_details : List String := []
  key_files : List String := []
  success_criteria : List String := []
deriving DecidableEq

/-- Schema `NotificationAssertions`. -/
structure NotificationAssertions where
  source_repo : String := ""
  target_repo : String := ""
  target_service : String := ""
  pr_url : String := ""
deriving DecidableEq

/-- Schema `NotificationJiraBundle` — `description_adf` is `dict | None`. -/
structure NotificationJiraBundle where
  summary : String := ""
  description_text : String := ""
  description_adf : Option PyDict := none
deriving DecidableEq

/-- Schema `NotificationSlackBundle`. -/
structure NotificationSlackBundle where
  text : String := ""
  blocks : List PyDict := []
deriving DecidableEq

/-- Schema `NotificationBundle`. -/
structure NotificationBundle where
  author : String := "devin"
  assertions : NotificationAssertions := {}
  jira : NotificationJiraBundle := {}
  slack : NotificationSlackBundle := {}
deriving DecidableEq

/-- Schema `PROpenedEvent`. -/
structure PROpenedEvent where
  event_type : String := "pr_opened"
  change_id : Int
  job_id : Int
  timestamp : String := ""
  source_repo : String := "api-core"
  target_repo : String
  target_service : String
  pr_url : String
  devin_session_url : String
  severity : String := "high"
  is_breaking : Bool := true
  summary : String := ""
  changed_routes : List String := []
  devin_context : DevinContext := {}
  notification_bundle : Option NotificationBundle := none
deriving DecidableEq

/-- Schema `JobSummary`. -/
structure JobSummary where
  job_id : Int
  target_repo : String := ""
  target_service : String := ""
  pr_url : String := ""
  devin_session_url : String := ""
  started_at : String := ""
  resolved_at : String := ""
deriving DecidableEq

/-- Schema `RecoveryCompleteEvent`. -/
structure RecoveryCompleteEvent where
  event_type : String := "recovery_complete"
  change_id : Int
  timestamp : String := ""
  source_repo : String := "api-core"
  severity : String := "high"
  is_breaking : Bool := true
  summary : String := ""
  affected_services : List String := []
  changed_routes : List String := []
  total_jobs : Int := 0
  jobs : List JobSummary := []
  mttr_seconds : Int := 0
deriving DecidableEq

/-- Schema `WebhookResponse`. -/
structure WebhookResponse where
  status : String
  jira_issue_key : Option String := none
  jira_issue_url : Option String := none
  slack_sent : Option Bool := none
  errors : List String := []
deriving DecidableEq

/-! ### Repo-reference helpers (`src/handlers/event_handler.py` lines 33–62) -/

/-- Model of `_normalize_repo_url` — canonicalize a repo reference to a full URL. -/
def normalizeRepoUrl (raw : Option String) : Option String :=
  match raw with
  | none => none
  | some r =>
    if r = "" then none
    else
      let value := pyStrip r
      if value = "" then none
      else if pyStartsWith value "https://github.com/" ∨ pyStartsWith value "http://github.com/" then
        some (pyReplaceFirst (pyRemoveSuffixGit (pyRstripSlashes value)) "http://" "https://")
      else if pyStartsWith value "github.com/" then
        some ("https://" ++ pyRemoveSuffixGit (pyRstripSlashes value))
      else if pyContains value "/" ∧ ¬ value.data.contains ' ' ∧ value.data.count '/' = 1 then
        some ("https://github.com/" ++ pyRemoveSuffixGit (pyRstripSlashes value))
      else some value

/-- Model of `_repo_from_pr_url` — owner/repo URL embedded in a PR URL. -/
def repoFromPrUrl (pr_url : Option String) : Option String :=
  match pr_url with
  | none => none
  | some u =>
    if u = "" then none
    else if ¬ pyContains u "github.com/" then none
    else
      match afterSubstr "github.com/".data u.data with
      | none => none
      | some tailChars =>
        let parts := pySplitSlash (String.mk tailChars)
        if parts.length < 2 then none
        else some ("https://github.com/" ++ parts.getD 0 "" ++ "/" ++ parts.getD 1 "")

/-- Model of `_repo_name` — short repo name (last path segment of the normalized
reference, falling back to the raw value when normalization is falsy). -/
def repoName (raw : Option String) : String :=
  match raw with
  | none => ""
  | some r =>
    if r = "" then ""
    else
      let base :=
        match normalizeRepoUrl (some r) with
        | some n => if n = "" then r else n
        | none => r
      (pySplitSlash (pyRstripSlashes base)).getLastD ""

/-! ### Bundle validation (`src/handlers/event_handler.py` lines 65–117) -/

/-- The target-repo guard of `_validate_notification_bundle` (line 81–84):
the bundle's asserted target repo (falling back to the event's own value)
normalizes to a different full URL than the event's trusted target repo. -/
def targetRepoMismatch (event : PROpenedEvent) (b : NotificationBundle) : Bool :=
  normalizeRepoUrl (some (pyOr b.assertions.target_repo event.target_repo))
    ≠ normalizeRepoUrl (some event.target_repo)

/-- Model of `_validate_notification_bundle` — all checks must pass or the bundle is
discarded (`None`). -/
def validateNotificationBundle (event : PROpenedEvent)
    (bundle : Option NotificationBundle) : Option NotificationBundle :=
  match bundle with
  | none => none
  | some b =>
    let author := pyLower (pyStrip (pyOr b.author ""))
    if author ≠ "" ∧ author ≠ "devin" then none
    else
      let asserted_source := pyOr b.assertions.source_repo event.source_repo
      if repoName (some asserted_source) ≠ repoName (some event.source_repo) then none
      else if targetRepoMismatch event b then none
      else
        let asserted_target_service := pyOr b.assertions.target_service event.target_service
        if pyStrip asserted_target_service ≠ pyStrip event.target_service then none
        else
          let asserted_pr_url := pyOr b.assertions.pr_url event.pr_url
          if pyStrip asserted_pr_url ≠ pyStrip event.pr_url then none
          else
            match repoFromPrUrl (some event.pr_url) with
            | some pr_repo =>
              if normalizeRepoUrl (some pr_repo) ≠ normalizeRepoUrl (some event.target_repo)
              then none else some b
            | none => some b

/-- Model of `_has_devin_jira_content` — the bundle carries a usable Jira
description (non-empty text, or a non-empty structured ADF dict). -/
def hasDevinJiraContent (bundle : Option NotificationBundle) : Bool :=
  match bundle with
  | none => false
  | some b =>
    (b.jira.description_text != "") ||
      (match b.jira.description_adf with
       | none => false
       | some d => !d.isEmpty)

/-- Model of `_jira_bundle_error` — the descriptive missing-content message. -/
def jiraBundleError (event : PROpenedEvent)
    (bundle : Option NotificationBundle) : String :=
  if event.notification_bundle = none then
    "missing Devin-authored notification bundle"
  else if bundle = none then
    "invalid Devin-authored notification bundle"
  else
    "missing Devin-authored Jira description in notification bundle"

/-- Model of `_has_devin_slack_content`. -/
def hasDevinSlackContent (bundle : Option NotificationBundle) : Bool :=
  match bundle with
  | none => false
  | some b => (b.slack.text != "") || !b.slack.blocks.isEmpty

/-! ### Persistent rows (`src/models`) -/

/-- Row model `NotificationEvent` (`src/models/notification_event.py`):
idempotency tracking plus per-sink outcome flags and truncated errors. -/
structure NotificationEvent where
  idempotency_key : String
  event_type : String
  change_id : Int
  job_id : Int
  payload_json : String
  jira_sent : Bool := false
  jira_error : Option String := none
  slack_sent : Bool := false
  slack_error : Option String := none
deriving DecidableEq

/-- Row model `JiraTicket` (`src/models/jira_ticket.py`). -/
structure JiraTicket where
  change_id : Int
  job_id : Int
  jira_issue_key : String
  jira_issue_url : String
deriving DecidableEq

/-- The store visible to one request: the two tables touched by the
handlers. -/
structure Db where
  events : List NotificationEvent := []
  tickets : List JiraTicket := []
deriving DecidableEq

/-! ### Configuration (`src/config.py`) -/

/-- The `Settings` fields read by the handlers and clients. -/
structure Settings where
  jira_base_url : String := ""
  jira_user_email : String := ""
  jira_api_token : String := ""
  jira_project_key : String := "AC"
  slack_bot_token : String := ""
  slack_channel : String := ""
  api_core_url : String := ""
  default_data_residency : String := "us"
  billing_url : String := ""
deriving DecidableEq

/-- Model of `JiraClient.__init__`: it raises unless both the base URL and the API
token are configured (`src/clients/jira_client.py` line 19). -/
def jiraConfigured (s : Settings) : Bool :=
  !(s.jira_base_url == "") && !(s.jira_api_token == "")

/-- The `RuntimeError` text of an unconfigured `JiraClient`. -/
def jiraNotConfiguredMsg : String :=
  "Jira not configured — set NOTIF_JIRA_BASE_URL and NOTIF_JIRA_API_TOKEN"

/-- Model of `SlackClient.__init__`: it raises unless both the bot token and the
channel are configured (`src/clients/slack_client.py` line 20). -/
def slackConfigured (s : Settings) : Bool :=
  !(s.slack_bot_token == "") && !(s.slack_channel == "")

/-- The `RuntimeError` text of an unconfigured `SlackClient`. -/
def slackNotConfiguredMsg : String :=
  "Slack not configured — set NOTIF_SLACK_BOT_TOKEN and NOTIF_SLACK_CHANNEL"

/-- Model of `JiraClient.browse_url` (`src/clients/jira_client.py` line 53). -/
def jiraBrowseUrl (s : Settings) (issue_key : String) : String :=
  pyRstripSlashes s.jira_base_url ++ "/browse/" ++ issue_key

/-! ### Opaque content blobs

Modelled from the spec: the message-formatting/templating logic is
"treated as pure functions producing opaque content blobs".  The
bundle-aware builders (`build_issue_fields_from_notification_bundle`,
`build_pr_notification_from_bundle`, `build_pr_notification_text`) are
imported by `src/handlers/event_handler.py` but their bodies are not part
of the sources under `src/templates`; they are embedded as opaque
constructors that record exactly which inputs the content was built
from. -/

/-- Opaque billing summary dict fetched by the enrichment gate. -/
abbrev BillingSummary := PyDict

/-- Modelled from the spec: opaque Slack message content, tagged with the
inputs it was built from (`build_pr_notification_from_bundle`,
`build_pr_notification` + `build_pr_notification_text`, and
`build_recovery_report` respectively). -/
inductive SlackContent where
  | fromBundle (event : PROpenedEvent) (bundle : Option NotificationBundle)
      (jira_issue_key jira_issue_url : Option String)
  | generated (event : PROpenedEvent)
      (jira_issue_key jira_issue_url : Option String)
  | recoveryReport (event : RecoveryCompleteEvent)
      (billing : Option BillingSummary)
deriving DecidableEq

/-- Modelled from the spec: opaque Jira issue fields built by
`build_issue_fields_from_notification_bundle`. -/
structure JiraIssueFields where
  event : PROpenedEvent
  bundle : Option NotificationBundle
deriving DecidableEq

/-! ### Action trace

Every outbound external call made by a handler run, in order, together
with the durable-store writes (`flush`, `commit`). -/

/-- One observable action of a handler run. -/
inductive Act where
  | dbFlush
  | dbCommit
  | apiCoreSession
  | apiCoreDetail
  | apiCoreClose
  | billingGet
  | billingClose
  | jiraCreate (fields : JiraIssueFields)
  | jiraComment (issue_key : String)
  | jiraClose
  | slackSend (content : SlackContent)
  | slackClose
deriving DecidableEq

/-- Outcomes of the external collaborators for one `pr_opened` request
(capability interface: `.error m` means the awaited call raised with
message `m`). -/
structure PrEnv where
  apiCoreSession : Except String Unit := .ok ()
  apiCoreClose : Except String Unit := .ok ()
  /-- Outcome of `create_issue`: the `"key"` entry of the response JSON
  (`none` when absent — the handler then uses `result.get("key", "")`). -/
  jiraCreate : Except String (Option String) := .ok (some "")
  jiraClose : Except String Unit := .ok ()
  slackSend : Except String Unit := .ok ()
  slackClose : Except String Unit := .ok ()

/-- Outcomes of the external collaborators for one `recovery_complete`
request.  `get_change_detail` and `get_billing_summary` swallow their own
failures and return `None`, so they carry plain `Option` results. -/
structure RecEnv where
  apiCoreDetail : Option PyDict := none
  apiCoreClose : Except String Unit := .ok ()
  billingSummary : Option BillingSummary := none
  billingClose : Except String Unit := .ok ()
  jiraComment : String → Except String Unit := fun _ => .ok ()
  jiraClose : Except String Unit := .ok ()
  slackSend : Except String Unit := .ok ()
  slackClose : Except String Unit := .ok ()

/-- The observable result of one handler run: the HTTP response, the
store after commit, the session's event record (`none` on the idempotent
short-circuit), and the ordered action trace. -/
structure RunResult where
  response : WebhookResponse
  db : Db
  record : Option NotificationEvent := none
  trace : List Act := []
deriving DecidableEq

/-- Modelled from the spec: `json.dumps(event.model_dump())` — the raw
payload serialized into the event record; opaque to the orchestration
core. -/
def dumpPrEvent (e : PROpenedEvent) : String :=
  "pr_opened payload change_id=" ++ toString e.change_id
    ++ " job_id=" ++ toString e.job_id

/-- Modelled from the spec: serialized `recovery_complete` payload. -/
def dumpRecEvent (e : RecoveryCompleteEvent) : String :=
  "recovery_complete payload change_id=" ++ toString e.change_id

/-- Idempotency key of a `pr_opened` event
(`src/handlers/event_handler.py` line 131). -/
def prIdemKey (e : PROpenedEvent) : String :=
  "pr_opened:" ++ toString e.job_id

/-- Idempotency key of a `recovery_complete` event
(`src/handlers/recovery_report.py` line 64). -/
def recIdemKey (e : RecoveryCompleteEvent) : String :=
  "recovery_complete:" ++ toString e.change_id

/-- The idempotency lookup: a `NotificationEvent` row with this key
already exists. -/
def findEvent (db : Db) (key : String) : Bool :=
  db.events.any (fun r => r.idempotency_key == key)

/-- Result-status aggregation shared by both handlers
(`event_handler.py` lines 222–224, `recovery_report.py` lines 175–177). -/
def aggregateStatus (errors : List String) (jira_sent slack_sent : Bool) : String :=
  if errors.isEmpty then "processed"
  else if jira_sent || slack_sent then "partial" else "failed"

/-! ### `handle_pr_opened` (`src/handlers/event_handler.py` lines 120–232) -/

/-- Per-branch outcome accumulated by the delivery coordinator: final
values of the local variables and of the record's per-sink fields, the
branch's appended response errors, and its external-call trace. -/
structure PrJiraOutcome where
  jira_issue_key : Option String := none
  jira_issue_url : Option String := none
  ticket : Option JiraTicket := none
  sent : Bool := false
  err : Option String := none
  errs : List String := []
  trace : List Act := []
deriving DecidableEq

/-- The `pr_opened` ticket branch (the first `try` block, lines 173–196):
missing-content guard, `JiraClient()` construction, `create_issue`,
`JiraTicket` insertion, `jira_sent`, `close`; every raise is caught and
recorded (`record.jira_error = str(exc)[:500]`,
`errors.append(f"jira: {exc}")`), with a suppressed second `close` in the
handler (a `NameError` when the client was never constructed, hence no
close call in that case). -/
def prJiraBranch (s : Settings) (env : PrEnv) (event : PROpenedEvent)
    (validated : Option NotificationBundle) : PrJiraOutcome :=
  if ¬ hasDevinJiraContent validated then
    let m := jiraBundleError event validated
    { err := some (pyTruncate 500 m), errs := ["jira: " ++ m] }
  else if ¬ jiraConfigured s then
    { err := some (pyTruncate 500 jiraNotConfiguredMsg),
      errs := ["jira: " ++ jiraNotConfiguredMsg] }
  else
    let fields : JiraIssueFields := { event := event, bundle := validated }
    match env.jiraCreate with
    | .error m =>
      { err := some (pyTruncate 500 m), errs := ["jira: " ++ m],
        trace := [.jiraCreate fields, .jiraClose] }
    | .ok keyEntry =>
      let issue_key := keyEntry.getD ""
      let issue_url := jiraBrowseUrl s issue_key
      let ticket : JiraTicket :=
        { change_id := event.change_id, job_id := event.job_id,
          jira_issue_key := issue_key, jira_issue_url := issue_url }
      match env.jiraClose with
      | .ok _ =>
        { jira_issue_key := some issue_key, jira_issue_url := some issue_url,
          ticket := some ticket, sent := true,
          trace := [.jiraCreate fields, .jiraClose] }
      | .error m =>
        { jira_issue_key := some issue_key, jira_issue_url := some issue_url,
          ticket := some ticket, sent := true,
          err := some (pyTruncate 500 m), errs := ["jira: " ++ m],
          trace := [.jiraCreate fields, .jiraClose, .jiraClose] }

/-- Per-branch outcome of a Slack delivery attempt. -/
structure SlackOutcome where
  sent : Bool := false
  err : Option String := none
  errs : List String := []
  trace : List Act := []
deriving DecidableEq

/-- The `pr_opened` chat branch (the second `try` block, lines 198–218):
`SlackClient()` construction, bundle-aware or generated content,
`send_message`, `slack_sent`, `close`; raises are caught and recorded the
same way as in the ticket branch. -/
def prSlackBranch (s : Settings) (env : PrEnv) (event : PROpenedEvent)
    (validated : Option NotificationBundle)
    (jira_issue_key jira_issue_url : Option String) : SlackOutcome :=
  if ¬ slackConfigured s then
    { err := some (pyTruncate 500 slackNotConfiguredMsg),
      errs := ["slack: " ++ slackNotConfiguredMsg] }
  else
    let content :=
      if hasDevinSlackContent validated then
        SlackContent.fromBundle event validated jira_issue_key jira_issue_url
      else
        SlackContent.generated event jira_issue_key jira_issue_url
    match env.slackSend with
    | .error m =>
      { err := some (pyTruncate 500 m), errs := ["slack: " ++ m],
        trace := [.slackSend content, .slackClose] }
    | .ok _ =>
      match env.slackClose with
      | .ok _ => { sent := true, trace := [.slackSend content, .slackClose] }
      | .error m =>
        { sent := true, err := some (pyTruncate 500 m),
          errs := ["slack: " ++ m],
          trace := [.slackSend content, .slackClose, .slackClose] }

/-- The best-effort api-core tracking-session block (lines 152–168): only
entered when `settings.api_core_url` is truthy; every failure is
swallowed (with a suppressed extra `close` after a raise). -/
def prApiCoreTrace (s : Settings) (env : PrEnv) : List Act :=
  if s.api_core_url = "" then []
  else
    match env.apiCoreSession with
    | .error _ => [.apiCoreSession, .apiCoreClose]
    | .ok _ =>
      match env.apiCoreClose with
      | .ok _ => [.apiCoreSession, .apiCoreClose]
      | .error _ => [.apiCoreSession, .apiCoreClose, .apiCoreClose]

/-- The non-duplicate path of `handle_pr_opened`: claim (add + flush),
enrichment, ticket branch, chat branch, commit, aggregation. -/
def prClaimAndDeliver (s : Settings) (env : PrEnv) (db : Db)
    (event : PROpenedEvent) : RunResult :=
  let record0 : NotificationEvent :=
      { idempotency_key := prIdemKey event, event_type := event.event_type,
        change_id := event.change_id, job_id := event.job_id,
        payload_json := dumpPrEvent event }
    let validated := validateNotificationBundle event event.notification_bundle
    let j := prJiraBranch s env event validated
    let sl := prSlackBranch s env event validated j.jira_issue_key j.jira_issue_url
    let errors := j.errs ++ sl.errs
    let record1 : NotificationEvent :=
      { record0 with jira_sent := j.sent, jira_error := j.err,
                     slack_sent := sl.sent, slack_error := sl.err }
    { response :=
        { status := aggregateStatus errors j.sent sl.sent,
          jira_issue_key := j.jira_issue_key,
          jira_issue_url := j.jira_issue_url,
          slack_sent := some sl.sent,
          errors := errors },
      db := { events := db.events ++ [record1],
              tickets := db.tickets ++ j.ticket.toList },
      record := some record1,
      trace := .dbFlush ::
        (prApiCoreTrace s env ++ j.trace ++ sl.trace ++ [.dbCommit]) }

/-- Model of `handle_pr_opened` (lines 120–232): idempotency short-circuit, then
the claim-and-deliver path. -/
def handlePrOpened (s : Settings) (env : PrEnv) (db : Db)
    (event : PROpenedEvent) : RunResult :=
  if findEvent db (prIdemKey event) then
    { response := { status := "already_processed" }, db := db }
  else prClaimAndDeliver s env db event

/-! ### `handle_recovery_complete` (`src/handlers/recovery_report.py`
lines 50–183) -/

/-- The best-effort change-detail fetch (lines 92–101):
`get_change_detail` swallows its own errors; only `close` can raise, and
that raise is swallowed by the handler with a suppressed second close. -/
def recApiCoreTrace (s : Settings) (env : RecEnv) : List Act :=
  if s.api_core_url = "" then []
  else
    match env.apiCoreClose with
    | .ok _ => [.apiCoreDetail, .apiCoreClose]
    | .error _ => [.apiCoreDetail, .apiCoreClose, .apiCoreClose]

/-- The best-effort billing fetch (lines 110–119): `get_billing_summary`
returns `None` without an HTTP call when `billing_url` is unset, and
swallows its own fetch errors; only `close` can raise (swallowed). -/
def recBillingTrace (s : Settings) (env : RecEnv) : List Act :=
  (if s.billing_url = "" then [] else [.billingGet]) ++
    (match env.billingClose with
     | .ok _ => [.billingClose]
     | .error _ => [.billingClose, .billingClose])

/-- The billing summary value seen by the templates. -/
def recBillingSummary (s : Settings) (env : RecEnv) : Option BillingSummary :=
  if s.billing_url = "" then none else env.billingSummary

/-- The per-ticket comment loop (lines 131–140): each ticket is attempted
in order inside its own `try`, a failing comment appends
`f"jira_comment:{key}: {exc}"` and the loop continues. Returns the
appended errors and the call trace. -/
def recCommentLoop (env : RecEnv) : List JiraTicket → List String × List Act
  | [] => ([], [])
  | t :: rest =>
    let r := recCommentLoop env rest
    match env.jiraComment t.jira_issue_key with
    | .ok _ => (r.1, .jiraComment t.jira_issue_key :: r.2)
    | .error m =>
      (("jira_comment:" ++ t.jira_issue_key ++ ": " ++ m) :: r.1,
       .jiraComment t.jira_issue_key :: r.2)

/-- The recovery ticket-comment branch (lines 121–153): skipped entirely
(no error) when no `JiraTicket` row matches the change id; otherwise
`JiraClient()` construction (raise caught, recorded as `"jira: …"`), the
per-ticket loop, `record.jira_sent = True`, then `close` (raise caught,
recorded as `"jira: …"` after the per-ticket errors). -/
def recJiraBranch (s : Settings) (env : RecEnv)
    (tickets : List JiraTicket) : SlackOutcome :=
  if tickets.isEmpty then {}
  else if ¬ jiraConfigured s then
    { err := some (pyTruncate 500 jiraNotConfiguredMsg),
      errs := ["jira: " ++ jiraNotConfiguredMsg] }
  else
    let loop := recCommentLoop env tickets
    match env.jiraClose with
    | .ok _ => { sent := true, errs := loop.1, trace := loop.2 ++ [.jiraClose] }
    | .error m =>
      { sent := true, err := some (pyTruncate 500 m),
        errs := loop.1 ++ ["jira: " ++ m],
        trace := loop.2 ++ [.jiraClose, .jiraClose] }

/-- The recovery chat branch (lines 156–171): recovery report content,
then the same deliver/close/except shape as the `pr_opened` chat
branch. -/
def recSlackBranch (s : Settings) (env : RecEnv)
    (event : RecoveryCompleteEvent) : SlackOutcome :=
  if ¬ slackConfigured s then
    { err := some (pyTruncate 500 slackNotConfiguredMsg),
      errs := ["slack: " ++ slackNotConfiguredMsg] }
  else
    let content := SlackContent.recoveryReport event (recBillingSummary s env)
    match env.slackSend with
    | .error m =>
      { err := some (pyTruncate 500 m), errs := ["slack: " ++ m],
        trace := [.slackSend content, .slackClose] }
    | .ok _ =>
      match env.slackClose with
      | .ok _ => { sent := true, trace := [.slackSend content, .slackClose] }
      | .error m =>
        { sent := true, err := some (pyTruncate 500 m),
          errs := ["slack: " ++ m],
          trace := [.slackSend content, .slackClose, .slackClose] }

/-- The non-duplicate path of `handle_recovery_complete`: claim
(add + flush), change-detail and billing enrichment, per-ticket comment
branch, chat branch, commit, aggregation. -/
def recClaimAndDeliver (s : Settings) (env : RecEnv) (db : Db)
    (event : RecoveryCompleteEvent) : RunResult :=
  let record0 : NotificationEvent :=
      { idempotency_key := recIdemKey event, event_type := event.event_type,
        change_id := event.change_id, job_id := 0,
        payload_json := dumpRecEvent event }
    let tickets := db.tickets.filter (fun t => t.change_id == event.change_id)
    let j := recJiraBranch s env tickets
    let sl := recSlackBranch s env event
    let errors := j.errs ++ sl.errs
    let record1 : NotificationEvent :=
      { record0 with jira_sent := j.sent, jira_error := j.err,
                     slack_sent := sl.sent, slack_error := sl.err }
    { response :=
        { status := aggregateStatus errors j.sent sl.sent,
          slack_sent := some sl.sent,
          errors := errors },
      db := { events := db.events ++ [record1], tickets := db.tickets },
      record := some record1,
      trace := .dbFlush ::
        (recApiCoreTrace s env ++ recBillingTrace s env
          ++ j.trace ++ sl.trace ++ [.dbCommit]) }

/-- Model of `handle_recovery_complete` (lines 50–183): idempotency short-circuit,
then the claim-and-deliver path. -/
def handleRecoveryComplete (s : Settings) (env : RecEnv) (db : Db)
    (event : RecoveryCompleteEvent) : RunResult :=
  if findEvent db (recIdemKey event) then
    { response := { status := "already_processed" }, db := db }
  else recClaimAndDeliver s env db event

/-! ## Concrete fixtures used by witnesses and counterexamples -/

/-- Fully configured settings (no api-core / billing URL, so the
enrichment gate is skipped, as in the repository's tests). -/
def settingsFix : Settings :=
  { jira_base_url := "https://x.atlassian.net", jira_api_token := "tok",
    slack_bot_token := "b", slack_channel := "c" }

/-- A valid Devin-authored bundle whose assertions are all empty (each
check then compares the event's own value with itself). -/
def bundleFix : NotificationBundle :=
  { author := "devin",
    jira := { summary := "s", description_text := "desc" },
    slack := { text := "t" } }

/-- A `pr_opened` event carrying `bundleFix`. -/
def eventFix : PROpenedEvent :=
  { change_id := 5, job_id := 42, target_repo := "o/r",
    target_service := "svc", pr_url := "https://github.com/o/r/pull/99",
    devin_session_url := "d", notification_bundle := some bundleFix }

/-- The same `pr_opened` event with no notification bundle (the shape of
`SAMPLE_EVENT` in `tests/test_webhooks.py`, job_id 42). -/
def eventNoBundleFix : PROpenedEvent :=
  { change_id := 5, job_id := 42, target_repo := "o/r",
    target_service := "svc", pr_url := "https://github.com/o/r/pull/99",
    devin_session_url := "d" }

/-- Environment where `create_issue` returns key `"X-1"` and everything
else succeeds. -/
def envCreateOkFix : PrEnv := { jiraCreate := .ok (some "X-1") }

/-- Environment where `create_issue` raises `"boom"`. -/
def envCreateFailFix : PrEnv := { jiraCreate := .error "boom" }

/-- Environment where `create_issue` returns `"X-1"` but the Jira client
`close()` afterwards raises `"boom"`. -/
def envCloseFailFix : PrEnv :=
  { jiraCreate := .ok (some "X-1"), jiraClose := .error "boom" }

/-- An already-claimed `NotificationEvent` row for `pr_opened:42`. -/
def priorRecordFix : NotificationEvent :=
  { idempotency_key := "pr_opened:42", event_type := "pr_opened",
    change_id := 5, job_id := 42, payload_json := "{}" }

/-- A store that already contains the `pr_opened:42` claim. -/
def dbDupFix : Db := { events := [priorRecordFix] }

/-- A ticket link row for change 7. -/
def ticketFix (k : String) : JiraTicket :=
  { change_id := 7, job_id := 1, jira_issue_key := k, jira_issue_url := "u" }

/-- A store holding one ticket link for change 7. -/
def dbOneTicketFix : Db := { tickets := [ticketFix "T-1"] }

/-- A store holding three ticket links for change 7 (Scenario D). -/
def dbThreeTicketsFix : Db :=
  { tickets := [ticketFix "T-1", ticketFix "T-2", ticketFix "T-3"] }

/-- The recovery event for change 7. -/
def eventRecFix : RecoveryCompleteEvent := { change_id := 7 }

/-- Recovery environment where every `add_comment` call raises. -/
def envRecAllFailFix : RecEnv := { jiraComment := fun _ => .error "boom" }

/-- Recovery environment where only the comment on `"T-2"` raises. -/
def envRecOneFailFix : RecEnv :=
  { jiraComment := fun k => if k = "T-2" then .error "boom" else .ok () }

/-- A bundle asserting a different target repo than `eventFix`. -/
def bundleMismatchFix : NotificationBundle :=
  { author := "devin",
    assertions := { target_repo := "o/other" },
    jira := { summary := "s", description_text := "desc" },
    slack := { text := "t" } }

/-- Fixture: `eventFix` carrying the mismatching bundle. -/
def eventMismatchFix : PROpenedEvent :=
  { change_id := 5, job_id := 42, target_repo := "o/r",
    target_service := "svc", pr_url := "https://github.com/o/r/pull/99",
    devin_session_url := "d", notification_bundle := some bundleMismatchFix }

/-! ## Helper lemmas -/

theorem handlePrOpened_dup (s : Settings) (env : PrEnv) (db : Db)
    (e : PROpenedEvent) (h : findEvent db (prIdemKey e) = true) :
    handlePrOpened s env db e =
      { response := { status := "already_processed" }, db := db } := by
  simp [handlePrOpened, h]

theorem handleRecoveryComplete_dup (s : Settings) (env : RecEnv) (db : Db)
    (e : RecoveryCompleteEvent) (h : findEvent db (recIdemKey e) = true) :
    handleRecoveryComplete s env db e =
      { response := { status := "already_processed" }, db := db } := by
  simp [handleRecoveryComplete, h]

theorem handlePrOpened_run (s : Settings) (env : PrEnv) (db : Db)
    (e : PROpenedEvent) (h : findEvent db (prIdemKey e) = false) :
    handlePrOpened s env db e = prClaimAndDeliver s env db e := by
  simp [handlePrOpened, h]

theorem handleRecoveryComplete_run (s : Settings) (env : RecEnv) (db : Db)
    (e : RecoveryCompleteEvent) (h : findEvent db (recIdemKey e) = false) :
    handleRecoveryComplete s env db e = recClaimAndDeliver s env db e := by
  simp [handleRecoveryComplete, h]

theorem findEvent_prClaimAndDeliver (s : Settings) (env : PrEnv) (db : Db)
    (e : PROpenedEvent) :
    findEvent (prClaimAndDeliver s env db e).db (prIdemKey e) = true := by
  simp [prClaimAndDeliver, findEvent, List.any_append]

theorem findEvent_recClaimAndDeliver (s : Settings) (env : RecEnv) (db : Db)
    (e : RecoveryCompleteEvent) :
    findEvent (recClaimAndDeliver s env db e).db (recIdemKey e) = true := by
  simp [recClaimAndDeliver, findEvent, List.any_append]

theorem aggregateStatus_spec (errors : List String) (a b : Bool) :
    (aggregateStatus errors a b = "processed" ↔ errors = []) ∧
    (aggregateStatus errors a b = "partial" ↔ errors ≠ [] ∧ (a || b) = true) ∧
    (aggregateStatus errors a b = "failed" ↔
      errors ≠ [] ∧ a = false ∧ b = false) := by
  unfold aggregateStatus
  rcases errors with _ | ⟨x, xs⟩ <;> rcases a <;> rcases b <;> simp

/-! ## Claims -/

/-- Claim C1: for every webhook event (`pr_opened` or
`recovery_complete`), if a `NotificationEvent` row with the same
idempotency key already exists, the handler returns `already_processed`,
performs zero external calls and leaves the store unchanged (the whole
run result is the untouched store with an empty trace and no session
record); and after any first (non-duplicate) call, a repeat call for the
same key — under any environment — short-circuits the same way, so only
the first call performs delivery side effects. -/
theorem claim_C1_idempotency :
    (∀ (s : Settings) (env : PrEnv) (db : Db) (e : PROpenedEvent),
      findEvent db (prIdemKey e) = true →
      handlePrOpened s env db e =
        { response := { status := "already_processed" }, db := db }) ∧
    (∀ (s : Settings) (env : RecEnv) (db : Db) (e : RecoveryCompleteEvent),
      findEvent db (recIdemKey e) = true →
      handleRecoveryComplete s env db e =
        { response := { status := "already_processed" }, db := db }) ∧
    (∀ (s : Settings) (env env2 : PrEnv) (db : Db) (e : PROpenedEvent),
      findEvent db (prIdemKey e) = false →
      handlePrOpened s env2 (handlePrOpened s env db e).db e =
        { response := { status := "already_processed" },
          db := (handlePrOpened s env db e).db }) ∧
    (∀ (s : Settings) (env env2 : RecEnv) (db : Db) (e : RecoveryCompleteEvent),
      findEvent db (recIdemKey e) = false →
      handleRecoveryComplete s env2 (handleRecoveryComplete s env db e).db e =
        { response := { status := "already_processed" },
          db := (handleRecoveryComplete s env db e).db }) := by
  refine ⟨handlePrOpened_dup, handleRecoveryComplete_dup, ?_, ?_⟩
  · intro s env env2 db e h
    rw [handlePrOpened_run s env db e h]
    exact handlePrOpened_dup s env2 _ e (findEvent_prClaimAndDeliver s env db e)
  · intro s env env2 db e h
    rw [handleRecoveryComplete_run s env db e h]
    exact handleRecoveryComplete_dup s env2 _ e
      (findEvent_recClaimAndDeliver s env db e)

/-- Witness for C1 at a concrete duplicate submission. -/
theorem claim_C1_idempotency_witness :
    handlePrOpened settingsFix envCreateOkFix dbDupFix eventNoBundleFix =
      { response := { status := "already_processed" }, db := dbDupFix } :=
  claim_C1_idempotency.1 settingsFix envCreateOkFix dbDupFix eventNoBundleFix
    (by decide)

/-- Claim C4: for every event of either type (outside the idempotent
short-circuit, where no event record exists), the response status is
`processed` iff the error list is empty, `partial` iff the error list is
non-empty and at least one of the record's sent flags is set, and
`failed` iff the error list is non-empty and neither sent flag is set. -/
theorem claim_C4_status_aggregation :
    (∀ (s : Settings) (env : PrEnv) (db : Db) (e : PROpenedEvent),
      findEvent db (prIdemKey e) = false →
      ∃ rec, (handlePrOpened s env db e).record = some rec ∧
        ((handlePrOpened s env db e).response.status = "processed" ↔
          (handlePrOpened s env db e).response.errors = []) ∧
        ((handlePrOpened s env db e).response.status = "partial" ↔
          ((handlePrOpened s env db e).response.errors ≠ [] ∧
            (rec.jira_sent || rec.slack_sent) = true)) ∧
        ((handlePrOpened s env db e).response.status = "failed" ↔
          ((handlePrOpened s env db e).response.errors ≠ [] ∧
            rec.jira_sent = false ∧ rec.slack_sent = false))) ∧
    (∀ (s : Settings) (env : RecEnv) (db : Db) (e : RecoveryCompleteEvent),
      findEvent db (recIdemKey e) = false →
      ∃ rec, (handleRecoveryComplete s env db e).record = some rec ∧
        ((handleRecoveryComplete s env db e).response.status = "processed" ↔
          (handleRecoveryComplete s env db e).response.errors = []) ∧
        ((handleRecoveryComplete s env db e).response.status = "partial" ↔
          ((handleRecoveryComplete s env db e).response.errors ≠ [] ∧
            (rec.jira_sent || rec.slack_sent) = true)) ∧
        ((handleRecoveryComplete s env db e).response.status = "failed" ↔
          ((handleRecoveryComplete s env db e).response.errors ≠ [] ∧
            rec.jira_sent = false ∧ rec.slack_sent = false))) := by
  constructor
  · intro s env db e h
    rw [handlePrOpened_run s env db e h]
    exact ⟨_, rfl, (aggregateStatus_spec _ _ _).1,
      (aggregateStatus_spec _ _ _).2.1, (aggregateStatus_spec _ _ _).2.2⟩
  · intro s env db e h
    rw [handleRecoveryComplete_run s env db e h]
    exact ⟨_, rfl, (aggregateStatus_spec _ _ _).1,
      (aggregateStatus_spec _ _ _).2.1, (aggregateStatus_spec _ _ _).2.2⟩

/-- Witness for C4 at a concrete non-duplicate `pr_opened` run. -/
theorem claim_C4_status_aggregation_witness :
    ((handlePrOpened settingsFix envCreateOkFix {} eventFix).response.status = "processed" ↔
      (handlePrOpened settingsFix envCreateOkFix {} eventFix).response.errors = []) ∧
    ((handlePrOpened settingsFix envCreateOkFix {} eventFix).response.status = "partial" ↔
      ((handlePrOpened settingsFix envCreateOkFix {} eventFix).response.errors ≠ [] ∧
        (handlePrOpened settingsFix envCreateOkFix {} eventFix).record.map
          (fun r => r.jira_sent || r.slack_sent) = some true)) ∧
    ((handlePrOpened settingsFix envCreateOkFix {} eventFix).response.status = "failed" ↔
      ((handlePrOpened settingsFix envCreateOkFix {} eventFix).response.errors ≠ [] ∧
        (handlePrOpened settingsFix envCreateOkFix {} eventFix).record.map
          NotificationEvent.jira_sent = some false ∧
        (handlePrOpened settingsFix envCreateOkFix {} eventFix).record.map
          NotificationEvent.slack_sent = some false)) := by
  obtain ⟨rec, hrec, h1, h2, h3⟩ :=
    claim_C4_status_aggregation.1 settingsFix envCreateOkFix {} eventFix
      (by decide)
  refine ⟨h1, ?_, ?_⟩
  · rw [hrec]
    simpa using h2
  · rw [hrec]
    simpa using h3

theorem prJiraBranch_noContent (s : Settings) (env : PrEnv)
    (e : PROpenedEvent) (v : Option NotificationBundle)
    (h : hasDevinJiraContent v = false) :
    prJiraBranch s env e v =
      { err := some (pyTruncate 500 (jiraBundleError e v)),
        errs := ["jira: " ++ jiraBundleError e v] } := by
  simp [prJiraBranch, h]

theorem prJiraBranch_notConfigured (s : Settings) (env : PrEnv)
    (e : PROpenedEvent) (v : Option NotificationBundle)
    (h1 : hasDevinJiraContent v = true) (h2 : jiraConfigured s = false) :
    prJiraBranch s env e v =
      { err := some (pyTruncate 500 jiraNotConfiguredMsg),
        errs := ["jira: " ++ jiraNotConfiguredMsg] } := by
  simp [prJiraBranch, h1, h2]

theorem prJiraBranch_createError (s : Settings) (env : PrEnv)
    (e : PROpenedEvent) (v : Option NotificationBundle) (m : String)
    (h1 : hasDevinJiraContent v = true) (h2 : jiraConfigured s = true)
    (h3 : env.jiraCreate = .error m) :
    prJiraBranch s env e v =
      { err := some (pyTruncate 500 m), errs := ["jira: " ++ m],
        trace := [.jiraCreate { event := e, bundle := v }, .jiraClose] } := by
  simp [prJiraBranch, h1, h2, h3]

theorem prJiraBranch_createOk_closeOk (s : Settings) (env : PrEnv)
    (e : PROpenedEvent) (v : Option NotificationBundle) (k : Option String)
    (h1 : hasDevinJiraContent v = true) (h2 : jiraConfigured s = true)
    (h3 : env.jiraCreate = .ok k) (h4 : env.jiraClose = .ok ()) :
    prJiraBranch s env e v =
      { jira_issue_key := some (k.getD ""),
        jira_issue_url := some (jiraBrowseUrl s (k.getD "")),
        ticket := some
          { change_id := e.change_id, job_id := e.job_id,
            jira_issue_key := k.getD "",
            jira_issue_url := jiraBrowseUrl s (k.getD "") },
        sent := true,
        trace := [.jiraCreate { event := e, bundle := v }, .jiraClose] } := by
  simp [prJiraBranch, h1, h2, h3, h4]

theorem prJiraBranch_createOk_closeError (s : Settings) (env : PrEnv)
    (e : PROpenedEvent) (v : Option NotificationBundle) (k : Option String)
    (m : String)
    (h1 : hasDevinJiraContent v = true) (h2 : jiraConfigured s = true)
    (h3 : env.jiraCreate = .ok k) (h4 : env.jiraClose = .error m) :
    prJiraBranch s env e v =
      { jira_issue_key := some (k.getD ""),
        jira_issue_url := some (jiraBrowseUrl s (k.getD "")),
        ticket := some
          { change_id := e.change_id, job_id := e.job_id,
            jira_issue_key := k.getD "",
            jira_issue_url := jiraBrowseUrl s (k.getD "") },
        sent := true, err := some (pyTruncate 500 m),
        errs := ["jira: " ++ m],
        trace := [.jiraCreate { event := e, bundle := v }, .jiraClose,
          .jiraClose] } := by
  simp [prJiraBranch, h1, h2, h3, h4]

theorem prSlackBranch_ok (s : Settings) (env : PrEnv) (e : PROpenedEvent)
    (v : Option NotificationBundle) (key url : Option String)
    (h1 : slackConfigured s = true) (h2 : env.slackSend = .ok ())
    (h3 : env.slackClose = .ok ()) :
    prSlackBranch s env e v key url =
      { sent := true,
        trace := [.slackSend
          (if hasDevinSlackContent v then
            SlackContent.fromBundle e v key url
          else SlackContent.generated e key url), .slackClose] } := by
  simp [prSlackBranch, h1, h2, h3]

theorem prSlackBranch_sendError (s : Settings) (env : PrEnv)
    (e : PROpenedEvent) (v : Option NotificationBundle)
    (key url : Option String) (m : String)
    (h1 : slackConfigured s = true) (h2 : env.slackSend = .error m) :
    prSlackBranch s env e v key url =
      { err := some (pyTruncate 500 m), errs := ["slack: " ++ m],
        trace := [.slackSend
          (if hasDevinSlackContent v then
            SlackContent.fromBundle e v key url
          else SlackContent.generated e key url), .slackClose] } := by
  simp [prSlackBranch, h1, h2]

theorem recSlackBranch_ok (s : Settings) (env : RecEnv)
    (e : RecoveryCompleteEvent)
    (h1 : slackConfigured s = true) (h2 : env.slackSend = .ok ())
    (h3 : env.slackClose = .ok ()) :
    recSlackBranch s env e =
      { sent := true,
        trace := [.slackSend
          (SlackContent.recoveryReport e (recBillingSummary s env)),
          .slackClose] } := by
  simp [recSlackBranch, h1, h2, h3]

theorem recSlackBranch_sendError (s : Settings) (env : RecEnv)
    (e : RecoveryCompleteEvent) (m : String)
    (h1 : slackConfigured s = true) (h2 : env.slackSend = .error m) :
    recSlackBranch s env e =
      { err := some (pyTruncate 500 m), errs := ["slack: " ++ m],
        trace := [.slackSend
          (SlackContent.recoveryReport e (recBillingSummary s env)),
          .slackClose] } := by
  simp [recSlackBranch, h1, h2]

theorem prJiraBranch_errs_shape (s : Settings) (env : PrEnv)
    (e : PROpenedEvent) (v : Option NotificationBundle) :
    (prJiraBranch s env e v).errs = [] ∨
      ∃ m, (prJiraBranch s env e v).errs = ["jira: " ++ m] := by
  by_cases h1 : hasDevinJiraContent v = true
  · by_cases h2 : jiraConfigured s = true
    · cases h3 : env.jiraCreate with
      | error m => rw [prJiraBranch_createError s env e v m h1 h2 h3]; right; exact ⟨m, rfl⟩
      | ok k =>
        cases h4 : env.jiraClose with
        | ok u =>
          rw [prJiraBranch_createOk_closeOk s env e v k h1 h2 h3 h4]
          left; rfl
        | error m =>
          rw [prJiraBranch_createOk_closeError s env e v k m h1 h2 h3 h4]
          right; exact ⟨m, rfl⟩
    · rw [prJiraBranch_notConfigured s env e v h1 (by simpa using h2)]
      right; exact ⟨jiraNotConfiguredMsg, rfl⟩
  · rw [prJiraBranch_noContent s env e v (by simpa using h1)]
    right; exact ⟨jiraBundleError e v, rfl⟩

theorem mem_prApiCoreTrace (s : Settings) (env : PrEnv) (a : Act)
    (h : a ∈ prApiCoreTrace s env) :
    a = .apiCoreSession ∨ a = .apiCoreClose := by
  unfold prApiCoreTrace at h
  split at h
  · simp at h
  · split at h
    · simp_all
    · split at h <;> simp_all

theorem mem_prJiraBranch_trace (s : Settings) (env : PrEnv)
    (e : PROpenedEvent) (v : Option NotificationBundle) (a : Act)
    (h : a ∈ (prJiraBranch s env e v).trace) :
    a = .jiraCreate { event := e, bundle := v } ∨ a = .jiraClose := by
  unfold prJiraBranch at h
  split at h
  · simp at h
  · split at h
    · simp at h
    · split at h
      · simp_all
      · split at h <;> simp_all

theorem mem_prSlackBranch_trace (s : Settings) (env : PrEnv)
    (e : PROpenedEvent) (v : Option NotificationBundle)
    (key url : Option String) (a : Act)
    (h : a ∈ (prSlackBranch s env e v key url).trace) :
    (∃ c, a = .slackSend c) ∨ a = .slackClose := by
  unfold prSlackBranch at h
  split at h
  · simp at h
  · rcases hs : env.slackSend with m | u
    · rw [hs] at h
      simp at h
      rcases h with h | h
      · exact Or.inl ⟨_, h⟩
      · exact Or.inr h
    · rw [hs] at h
      rcases hc : env.slackClose with m | u2
      · rw [hc] at h
        simp at h
        rcases h with h | h
        · exact Or.inl ⟨_, h⟩
        · exact Or.inr h
      · rw [hc] at h
        simp at h
        rcases h with h | h
        · exact Or.inl ⟨_, h⟩
        · exact Or.inr h

theorem mem_recApiCoreTrace (s : Settings) (env : RecEnv) (a : Act)
    (h : a ∈ recApiCoreTrace s env) :
    a = .apiCoreDetail ∨ a = .apiCoreClose := by
  unfold recApiCoreTrace at h
  split at h
  · simp at h
  · split at h <;> simp_all

theorem mem_recBillingTrace (s : Settings) (env : RecEnv) (a : Act)
    (h : a ∈ recBillingTrace s env) :
    a = .billingGet ∨ a = .billingClose := by
  unfold recBillingTrace at h
  rw [List.mem_append] at h
  rcases h with h | h
  · split at h <;> simp_all
  · split at h <;> simp_all

theorem recCommentLoop_trace (env : RecEnv) (ts : List JiraTicket) :
    (recCommentLoop env ts).2 =
      ts.map (fun t => Act.jiraComment t.jira_issue_key) := by
  induction ts with
  | nil => rfl
  | cons t rest ih =>
    unfold recCommentLoop
    cases h : env.jiraComment t.jira_issue_key <;> simp [h, ih]

theorem recCommentLoop_errs (env : RecEnv) (ts : List JiraTicket) :
    (recCommentLoop env ts).1 =
      ts.filterMap (fun t =>
        match env.jiraComment t.jira_issue_key with
        | .ok _ => none
        | .error m =>
          some ("jira_comment:" ++ t.jira_issue_key ++ ": " ++ m)) := by
  induction ts with
  | nil => rfl
  | cons t rest ih =>
    unfold recCommentLoop
    cases h : env.jiraComment t.jira_issue_key <;> simp [h, ih]

theorem mem_recJiraBranch_trace (s : Settings) (env : RecEnv)
    (ts : List JiraTicket) (a : Act)
    (h : a ∈ (recJiraBranch s env ts).trace) :
    (∃ k, a = .jiraComment k) ∨ a = .jiraClose := by
  unfold recJiraBranch at h
  split at h
  · simp at h
  · split at h
    · simp at h
    · split at h <;>
        · rw [List.mem_append, recCommentLoop_trace] at h
          rcases h with h | h
          · rw [List.mem_map] at h
            obtain ⟨t, _, ht⟩ := h
            exact Or.inl ⟨t.jira_issue_key, ht.symm⟩
          · simp_all

theorem mem_recSlackBranch_trace (s : Settings) (env : RecEnv)
    (e : RecoveryCompleteEvent) (a : Act)
    (h : a ∈ (recSlackBranch s env e).trace) :
    (∃ c, a = .slackSend c) ∨ a = .slackClose := by
  unfold recSlackBranch at h
  split at h
  · simp at h
  · rcases hs : env.slackSend with m | u
    · rw [hs] at h
      simp at h
      rcases h with h | h
      · exact Or.inl ⟨_, h⟩
      · exact Or.inr h
    · rw [hs] at h
      rcases hc : env.slackClose with m | u2
      · rw [hc] at h
        simp at h
        rcases h with h | h
        · exact Or.inl ⟨_, h⟩
        · exact Or.inr h
      · rw [hc] at h
        simp at h
        rcases h with h | h
        · exact Or.inl ⟨_, h⟩
        · exact Or.inr h

/-- Claim C8: on every non-duplicate run of either handler, the insertion
of the event record (add + flush) is the head of the action trace — it
precedes every outbound external call, and no further flush occurs, so
the claim is the first durable write of the request. -/
theorem claim_C8_claim_precedes_delivery :
    (∀ (s : Settings) (env : PrEnv) (db : Db) (e : PROpenedEvent),
      findEvent db (prIdemKey e) = false →
      ∃ rest, (handlePrOpened s env db e).trace = Act.dbFlush :: rest ∧
        Act.dbFlush ∉ rest) ∧
    (∀ (s : Settings) (env : RecEnv) (db : Db) (e : RecoveryCompleteEvent),
      findEvent db (recIdemKey e) = false →
      ∃ rest, (handleRecoveryComplete s env db e).trace = Act.dbFlush :: rest ∧
        Act.dbFlush ∉ rest) := by
  constructor
  · intro s env db e h
    rw [handlePrOpened_run s env db e h]
    refine ⟨_, rfl, ?_⟩
    intro hmem
    simp only [List.mem_append, List.mem_singleton] at hmem
    rcases hmem with ((h1 | h2) | h3) | h4
    · rcases mem_prApiCoreTrace s env _ h1 with h5 | h5 <;> simp at h5
    · rcases mem_prJiraBranch_trace s env _ _ _ h2 with h5 | h5 <;> simp at h5
    · rcases mem_prSlackBranch_trace s env _ _ _ _ _ h3 with ⟨c, h5⟩ | h5 <;>
        simp at h5
    · simp at h4
  · intro s env db e h
    rw [handleRecoveryComplete_run s env db e h]
    refine ⟨_, rfl, ?_⟩
    intro hmem
    simp only [List.mem_append, List.mem_singleton] at hmem
    rcases hmem with (((h1 | h2) | h3) | h4) | h5
    · rcases mem_recApiCoreTrace s env _ h1 with h6 | h6 <;> simp at h6
    · rcases mem_recBillingTrace s env _ h2 with h6 | h6 <;> simp at h6
    · rcases mem_recJiraBranch_trace s env _ _ h3 with ⟨k, h6⟩ | h6 <;>
        simp at h6
    · rcases mem_recSlackBranch_trace s env _ _ h4 with ⟨c, h6⟩ | h6 <;>
        simp at h6
    · simp at h5

/-- Witness for C8 at a concrete non-duplicate `pr_opened` run. -/
theorem claim_C8_claim_precedes_delivery_witness :
    (handlePrOpened settingsFix envCreateOkFix {} eventFix).trace.head? =
      some Act.dbFlush ∧
    Act.dbFlush ∉
      (handlePrOpened settingsFix envCreateOkFix {} eventFix).trace.tail := by
  obtain ⟨rest, h1, h2⟩ :=
    claim_C8_claim_precedes_delivery.1 settingsFix envCreateOkFix {} eventFix
      (by decide)
  rw [h1]
  exact ⟨rfl, h2⟩

/-- Claim C7: on every non-duplicate `pr_opened` run whose validated
bundle lacks usable ticket content, the ticket branch fails with the
descriptive missing-content error — recorded (prefixed `jira: `) in the
response error list and (truncated) on the event record — no
`create_issue` call is ever made, no ticket id is returned, and no
`JiraTicket` row is persisted. -/
theorem claim_C7_missing_content_guard :
    ∀ (s : Settings) (env : PrEnv) (db : Db) (e : PROpenedEvent),
      findEvent db (prIdemKey e) = false →
      hasDevinJiraContent (validateNotificationBundle e e.notification_bundle)
        = false →
      ((∀ f, Act.jiraCreate f ∉ (handlePrOpened s env db e).trace) ∧
       ("jira: " ++
          jiraBundleError e
            (validateNotificationBundle e e.notification_bundle)) ∈
         (handlePrOpened s env db e).response.errors ∧
       (handlePrOpened s env db e).record.bind NotificationEvent.jira_error =
         some (pyTruncate 500
           (jiraBundleError e
             (validateNotificationBundle e e.notification_bundle))) ∧
       (handlePrOpened s env db e).response.jira_issue_key = none ∧
       (handlePrOpened s env db e).db.tickets = db.tickets) := by
  intro s env db e hdup hguard
  rw [handlePrOpened_run s env db e hdup]
  have hj := prJiraBranch_noContent s env e _ hguard
  refine ⟨?_, ?_, ?_, ?_, ?_⟩
  · intro f hmem
    simp only [prClaimAndDeliver] at hmem
    rw [hj] at hmem
    simp only [List.mem_cons, List.mem_append, List.mem_singleton] at hmem
    rcases hmem with h0 | (((h1 | h2) | h3) | h4)
    · simp at h0
    · rcases mem_prApiCoreTrace s env _ h1 with h5 | h5 <;> simp at h5
    · simp at h2
    · rcases mem_prSlackBranch_trace s env _ _ _ _ _ h3 with ⟨c, h5⟩ | h5 <;>
        simp at h5
    · simp at h4
  · simp [prClaimAndDeliver, hj]
  · simp [prClaimAndDeliver, hj]
  · simp [prClaimAndDeliver, hj]
  · simp [prClaimAndDeliver, hj]

/-- Witness for C7: a `pr_opened` event with no bundle. -/
theorem claim_C7_missing_content_guard_witness :
    ("jira: " ++
       jiraBundleError eventNoBundleFix
         (validateNotificationBundle eventNoBundleFix
           eventNoBundleFix.notification_bundle)) ∈
      (handlePrOpened settingsFix envCreateOkFix {} eventNoBundleFix).response.errors ∧
    (handlePrOpened settingsFix envCreateOkFix {} eventNoBundleFix).record.bind
        NotificationEvent.jira_error =
      some (pyTruncate 500
        (jiraBundleError eventNoBundleFix
          (validateNotificationBundle eventNoBundleFix
            eventNoBundleFix.notification_bundle))) ∧
    (handlePrOpened settingsFix envCreateOkFix {} eventNoBundleFix).response.jira_issue_key
      = none ∧
    (handlePrOpened settingsFix envCreateOkFix {} eventNoBundleFix).db.tickets
      = (({} : Db)).tickets :=
  (claim_C7_missing_content_guard settingsFix envCreateOkFix {}
    eventNoBundleFix (by decide) (by decide)).2

theorem pyTruncate_of_le (t : String) (h : t.length ≤ 500) :
    pyTruncate 500 t = t := by
  unfold pyTruncate
  rw [List.take_of_length_le h]

theorem pyTruncate_gt (t : String) (h : 500 < t.length) :
    (pyTruncate 500 t).length = 500 ∧
      (pyTruncate 500 t).data = t.data.take 500 := by
  constructor
  · show (t.data.take 500).length = 500
    rw [List.length_take]
    have hd : t.data.length = t.length := rfl
    omega
  · rfl

theorem validate_none_of_targetMismatch (e : PROpenedEvent)
    (b : NotificationBundle) (h : targetRepoMismatch e b = true) :
    validateNotificationBundle e (some b) = none := by
  simp only [validateNotificationBundle]
  split
  · rfl
  · split
    · rfl
    · simp [h]

theorem targetRepoMismatch_of_empty (e : PROpenedEvent)
    (b : NotificationBundle) (h : b.assertions.target_repo = "") :
    targetRepoMismatch e b = false := by
  simp [targetRepoMismatch, pyOr, h]

theorem mem_prSlackBranch_slackSend (s : Settings) (env : PrEnv)
    (e : PROpenedEvent) (v : Option NotificationBundle)
    (key url : Option String) (c : SlackContent)
    (h : Act.slackSend c ∈ (prSlackBranch s env e v key url).trace) :
    c = (if hasDevinSlackContent v then
          SlackContent.fromBundle e v key url
        else SlackContent.generated e key url) := by
  unfold prSlackBranch at h
  split at h
  · simp at h
  · rcases hs : env.slackSend with m | u
    · rw [hs] at h
      simpa using h
    · rw [hs] at h
      rcases hc : env.slackClose with m | u2
      · rw [hc] at h
        simpa using h
      · rw [hc] at h
        simpa using h

theorem no_jiraCreate_of_noContent (s : Settings) (env : PrEnv) (db : Db)
    (e : PROpenedEvent)
    (hguard : hasDevinJiraContent
      (validateNotificationBundle e e.notification_bundle) = false) :
    ∀ f, Act.jiraCreate f ∉ (handlePrOpened s env db e).trace := by
  intro f hmem
  by_cases hdup : findEvent db (prIdemKey e) = true
  · rw [handlePrOpened_dup s env db e hdup] at hmem
    simp at hmem
  · rw [handlePrOpened_run s env db e (by simpa using hdup)] at hmem
    simp only [prClaimAndDeliver] at hmem
    rw [prJiraBranch_noContent s env e _ hguard] at hmem
    simp only [List.mem_cons, List.mem_append, List.mem_singleton] at hmem
    rcases hmem with h0 | (((h1 | h2) | h3) | h4)
    · simp at h0
    · rcases mem_prApiCoreTrace s env _ h1 with h5 | h5 <;> simp at h5
    · simp at h2
    · rcases mem_prSlackBranch_trace s env _ _ _ _ _ h3 with ⟨c, h5⟩ | h5 <;>
        simp at h5
    · simp at h4

theorem slackSend_generated_of_noSlackContent (s : Settings) (env : PrEnv)
    (db : Db) (e : PROpenedEvent)
    (hsl : hasDevinSlackContent
      (validateNotificationBundle e e.notification_bundle) = false) :
    ∀ c, Act.slackSend c ∈ (handlePrOpened s env db e).trace →
      ∃ key url, c = SlackContent.generated e key url := by
  intro c hmem
  by_cases hdup : findEvent db (prIdemKey e) = true
  · rw [handlePrOpened_dup s env db e hdup] at hmem
    simp at hmem
  · rw [handlePrOpened_run s env db e (by simpa using hdup)] at hmem
    simp only [prClaimAndDeliver] at hmem
    simp only [List.mem_cons, List.mem_append, List.mem_singleton] at hmem
    rcases hmem with h0 | (((h1 | h2) | h3) | h4)
    · simp at h0
    · rcases mem_prApiCoreTrace s env _ h1 with h5 | h5 <;> simp at h5
    · rcases mem_prJiraBranch_trace s env _ _ _ h2 with h5 | h5 <;> simp at h5
    · have hc := mem_prSlackBranch_slackSend s env e _ _ _ c h3
      rw [hsl] at hc
      simp at hc
      exact ⟨_, _, hc⟩
    · simp at h4

/-- Claim C6: a notification bundle whose asserted target repo (after
normalizing both sides to a full canonical URL, with the event's own
value substituted for an omitted assertion) differs from the event's
trusted target repo is rejected — validation returns `None`, the ticket
branch never calls `create_issue`, and any chat message sent is built
from the generated (non-bundle) content; and when the assertion is the
empty string the event's value is compared against itself, so the check
always passes. -/
theorem claim_C6_target_repo_bundle_rejection :
    ∀ (e : PROpenedEvent) (b : NotificationBundle),
      (targetRepoMismatch e b = true →
        validateNotificationBundle e (some b) = none) ∧
      (b.assertions.target_repo = "" → targetRepoMismatch e b = false) ∧
      (∀ (s : Settings) (env : PrEnv) (db : Db),
        e.notification_bundle = some b →
        targetRepoMismatch e b = true →
        ((∀ f, Act.jiraCreate f ∉ (handlePrOpened s env db e).trace) ∧
         (∀ c, Act.slackSend c ∈ (handlePrOpened s env db e).trace →
           ∃ key url, c = SlackContent.generated e key url))) := by
  intro e b
  refine ⟨validate_none_of_targetMismatch e b,
    targetRepoMismatch_of_empty e b, ?_⟩
  intro s env db hb hmis
  have hv : validateNotificationBundle e e.notification_bundle = none := by
    rw [hb]
    exact validate_none_of_targetMismatch e b hmis
  constructor
  · exact no_jiraCreate_of_noContent s env db e (by rw [hv]; rfl)
  · exact slackSend_generated_of_noSlackContent s env db e (by rw [hv]; rfl)

/-- Witness for C6: the mismatching bundle is rejected and the create
call is suppressed on a concrete run. -/
theorem claim_C6_target_repo_bundle_rejection_witness :
    validateNotificationBundle eventMismatchFix (some bundleMismatchFix)
      = none ∧
    targetRepoMismatch eventMismatchFix bundleMismatchFix = true ∧
    Act.jiraCreate
        { event := eventMismatchFix, bundle := some bundleMismatchFix } ∉
      (handlePrOpened settingsFix envCreateOkFix {} eventMismatchFix).trace := by
  have h := claim_C6_target_repo_bundle_rejection eventMismatchFix
    bundleMismatchFix
  exact ⟨h.1 (by decide), by decide,
    (h.2.2 settingsFix envCreateOkFix {} rfl (by decide)).1 _⟩

/-- Claim C2, evaluated at its failing input (Scenario A: `job_id = 42`,
no notification bundle, ticket creation would return `"X-1"`, chat
succeeds — the very input of `test_pr_opened_creates_jira_and_slack` in
`tests/test_webhooks.py`): the handler's missing-content guard raises
before `create_issue` is ever called, so the run returns `partial` with
the missing-bundle error, creates no Ticket Link Record, and the trace
shows no ticket-creation call — not the `processed`/`"X-1"`/row outcome
the claim (and the repository's own webhook test) requires. -/
theorem claim_C2_scenario_a_failing_input :
    (handlePrOpened settingsFix envCreateOkFix {} eventNoBundleFix).response =
      { status := "partial", jira_issue_key := none, jira_issue_url := none,
        slack_sent := some true,
        errors := ["jira: missing Devin-authored notification bundle"] } ∧
    (handlePrOpened settingsFix envCreateOkFix {} eventNoBundleFix).db.tickets
      = [] ∧
    (handlePrOpened settingsFix envCreateOkFix {} eventNoBundleFix).trace =
      [Act.dbFlush,
       Act.slackSend (SlackContent.generated eventNoBundleFix none none),
       Act.slackClose, Act.dbCommit] := by
  decide

/-- Counterexample to claim C3 as stated: when the ticket branch raises
*after* `create_issue` succeeded (here: the Jira client's `close()`
raises), the chat branch still runs and succeeds and the response is
`partial` with exactly one ticket error — but the ticket id is present
(`"X-1"`), not absent as the claim requires for every ticket-branch
raise. -/
theorem claim_C3_counterexample :
    (handlePrOpened settingsFix envCloseFailFix {} eventFix).response.status
      = "partial" ∧
    (handlePrOpened settingsFix envCloseFailFix {} eventFix).response.slack_sent
      = some true ∧
    (handlePrOpened settingsFix envCloseFailFix {} eventFix).response.errors
      = ["jira: boom"] ∧
    (handlePrOpened settingsFix envCloseFailFix {} eventFix).response.jira_issue_key
      = some "X-1" := by
  decide

/-- Claim C3 (amended): on every non-duplicate `pr_opened` run whose
ticket branch records an error, the chat branch is still attempted; when
chat fully succeeds the response is `partial` with `chat_sent = true`
and exactly one `"jira: <message>"` error entry, and the ticket id is
absent whenever the failure struck at or before the create call (guard,
unconfigured client, or `create_issue` raising) — if the branch failed
only after creation succeeded (the `close()` call), the created ticket
id is still returned. -/
theorem claim_C3_ticket_failure_isolation :
    ∀ (s : Settings) (env : PrEnv) (db : Db) (e : PROpenedEvent),
      findEvent db (prIdemKey e) = false →
      slackConfigured s = true →
      env.slackSend = .ok () →
      env.slackClose = .ok () →
      (prJiraBranch s env e
        (validateNotificationBundle e e.notification_bundle)).errs ≠ [] →
      ((handlePrOpened s env db e).response.status = "partial" ∧
       (handlePrOpened s env db e).response.slack_sent = some true ∧
       (∃ m, (handlePrOpened s env db e).response.errors = ["jira: " ++ m]) ∧
       (∃ c, Act.slackSend c ∈ (handlePrOpened s env db e).trace) ∧
       (∀ m, env.jiraCreate = .error m →
         (handlePrOpened s env db e).response.jira_issue_key = none) ∧
       (hasDevinJiraContent
           (validateNotificationBundle e e.notification_bundle) = false →
         (handlePrOpened s env db e).response.jira_issue_key = none) ∧
       (jiraConfigured s = false →
         (handlePrOpened s env db e).response.jira_issue_key = none) ∧
       (∀ k m, hasDevinJiraContent
           (validateNotificationBundle e e.notification_bundle) = true →
         jiraConfigured s = true → env.jiraCreate = .ok k →
         env.jiraClose = .error m →
         (handlePrOpened s env db e).response.jira_issue_key =
           some (k.getD ""))) := by
  intro s env db e hdup hsc hss hscl hfail
  rw [handlePrOpened_run s env db e hdup]
  have hshape := prJiraBranch_errs_shape s env e
    (validateNotificationBundle e e.notification_bundle)
  rcases hshape with hempty | ⟨m0, hm0⟩
  · exact absurd hempty hfail
  refine ⟨?_, ?_, ?_, ?_, ?_, ?_, ?_, ?_⟩
  · simp only [prClaimAndDeliver]
    simp only [prSlackBranch_ok _ _ _ _ _ _ hsc hss hscl]
    refine (aggregateStatus_spec _ _ _).2.1.mpr ⟨?_, by simp⟩
    simp [hm0]
  · simp [prClaimAndDeliver, prSlackBranch_ok _ _ _ _ _ _ hsc hss hscl]
  · refine ⟨m0, ?_⟩
    simp [prClaimAndDeliver, prSlackBranch_ok _ _ _ _ _ _ hsc hss hscl, hm0]
  · simp only [prClaimAndDeliver]
    rw [prSlackBranch_ok _ _ _ _ _ _ hsc hss hscl]
    dsimp only
    exact ⟨_, List.mem_cons_of_mem _ (List.mem_append_left _
      (List.mem_append_right _ (List.mem_cons_self _ _)))⟩
  · intro m hc
    by_cases hg : hasDevinJiraContent
        (validateNotificationBundle e e.notification_bundle) = true
    · by_cases hcf : jiraConfigured s = true
      · simp [prClaimAndDeliver, prJiraBranch_createError s env e _ m hg hcf hc]
      · simp [prClaimAndDeliver,
          prJiraBranch_notConfigured s env e _ hg (by simpa using hcf)]
    · simp [prClaimAndDeliver,
        prJiraBranch_noContent s env e _ (by simpa using hg)]
  · intro hg
    simp [prClaimAndDeliver, prJiraBranch_noContent s env e _ hg]
  · intro hcf
    by_cases hg : hasDevinJiraContent
        (validateNotificationBundle e e.notification_bundle) = true
    · simp [prClaimAndDeliver, prJiraBranch_notConfigured s env e _ hg hcf]
    · simp [prClaimAndDeliver,
        prJiraBranch_noContent s env e _ (by simpa using hg)]
  · intro k m hg hcf hok hcl
    simp [prClaimAndDeliver,
      prJiraBranch_createOk_closeError s env e _ k m hg hcf hok hcl]

/-- Witness for the amended C3: `create_issue` raises, chat succeeds. -/
theorem claim_C3_ticket_failure_isolation_witness :
    (handlePrOpened settingsFix envCreateFailFix {} eventFix).response.status
      = "partial" ∧
    (handlePrOpened settingsFix envCreateFailFix {} eventFix).response.slack_sent
      = some true ∧
    (handlePrOpened settingsFix envCreateFailFix {} eventFix).response.jira_issue_key
      = none := by
  have h := claim_C3_ticket_failure_isolation settingsFix envCreateFailFix {}
    eventFix (by decide) (by decide) rfl rfl (by decide)
  exact ⟨h.1, h.2.1, h.2.2.2.2.1 "boom" rfl⟩

theorem recJiraBranch_nil (s : Settings) (env : RecEnv) :
    recJiraBranch s env [] = {} := by
  simp [recJiraBranch]

theorem recJiraBranch_closeOk (s : Settings) (env : RecEnv)
    (ts : List JiraTicket) (hne : ts.isEmpty = false)
    (hconf : jiraConfigured s = true) (hcl : env.jiraClose = .ok ()) :
    recJiraBranch s env ts =
      { sent := true, errs := (recCommentLoop env ts).1,
        trace := (recCommentLoop env ts).2 ++ [.jiraClose] } := by
  simp [recJiraBranch, hne, hconf, hcl]

theorem recJiraBranch_closeError (s : Settings) (env : RecEnv)
    (ts : List JiraTicket) (m : String) (hne : ts.isEmpty = false)
    (hconf : jiraConfigured s = true) (hcl : env.jiraClose = .error m) :
    recJiraBranch s env ts =
      { sent := true, err := some (pyTruncate 500 m),
        errs := (recCommentLoop env ts).1 ++ ["jira: " ++ m],
        trace := (recCommentLoop env ts).2 ++ [.jiraClose, .jiraClose] } := by
  simp [recJiraBranch, hne, hconf, hcl]

/-- Counterexample to claim C5 as stated: for a change with exactly one
ticket link whose comment call raises (so *zero* comments succeed), the
branch's sent flag is still set and the status is `partial` — the code
sets `record.jira_sent = True` after the loop regardless of the
individual comment outcomes, so "sent iff at least one comment
succeeds" is false. -/
theorem claim_C5_counterexample :
    (handleRecoveryComplete settingsFix envRecAllFailFix dbOneTicketFix
        eventRecFix).response.errors = ["jira_comment:T-1: boom"] ∧
    (handleRecoveryComplete settingsFix envRecAllFailFix dbOneTicketFix
        eventRecFix).record.map NotificationEvent.jira_sent = some true ∧
    (handleRecoveryComplete settingsFix envRecAllFailFix dbOneTicketFix
        eventRecFix).response.status = "partial" := by
  decide

/-- Claim C5 (amended): on every non-duplicate `recovery_complete` run,
an `add_comment` call is attempted for every Ticket Link Record matching
the change id (one failure never stops the remaining tickets), each
failing comment is recorded as its own namespaced
`jira_comment:<ticket_id>: <message>` entry in ticket order, the
branch's sent flag is set whenever the comment pass runs at all
(configured client and at least one matching ticket), regardless of the
individual comment outcomes, and with zero matching records the branch
is skipped without any comment call or error. -/
theorem claim_C5_recovery_comment_branch :
    ∀ (s : Settings) (env : RecEnv) (db : Db) (e : RecoveryCompleteEvent),
      findEvent db (recIdemKey e) = false →
      ((∀ t, t ∈ db.tickets.filter (fun t => t.change_id == e.change_id) →
          jiraConfigured s = true →
          Act.jiraComment t.jira_issue_key ∈
            (handleRecoveryComplete s env db e).trace) ∧
       (db.tickets.filter (fun t => t.change_id == e.change_id) ≠ [] →
         jiraConfigured s = true →
         (handleRecoveryComplete s env db e).record.map
           NotificationEvent.jira_sent = some true) ∧
       (jiraConfigured s = true → env.jiraClose = .ok () →
         slackConfigured s = true → env.slackSend = .ok () →
         env.slackClose = .ok () →
         (handleRecoveryComplete s env db e).response.errors =
           (db.tickets.filter (fun t => t.change_id == e.change_id)).filterMap
             (fun t =>
               match env.jiraComment t.jira_issue_key with
               | .ok _ => none
               | .error m =>
                 some ("jira_comment:" ++ t.jira_issue_key ++ ": " ++ m))) ∧
       (db.tickets.filter (fun t => t.change_id == e.change_id) = [] →
         ((handleRecoveryComplete s env db e).record.map
            NotificationEvent.jira_sent = some false ∧
          (handleRecoveryComplete s env db e).record.bind
            NotificationEvent.jira_error = none ∧
          ∀ k, Act.jiraComment k ∉
            (handleRecoveryComplete s env db e).trace))) := by
  intro s env db e hdup
  rw [handleRecoveryComplete_run s env db e hdup]
  refine ⟨?_, ?_, ?_, ?_⟩
  · intro t ht hconf
    have hne : (db.tickets.filter (fun t => t.change_id == e.change_id)).isEmpty
        = false := by
      rcases hh : db.tickets.filter (fun t => t.change_id == e.change_id) with
        _ | ⟨x, xs⟩
      · rw [hh] at ht
        simp at ht
      · rw [hh]
        rfl
    have hmem : Act.jiraComment t.jira_issue_key ∈
        (recCommentLoop env
          (db.tickets.filter (fun t => t.change_id == e.change_id))).2 := by
      rw [recCommentLoop_trace]
      exact List.mem_map_of_mem _ ht
    simp only [recClaimAndDeliver]
    rcases hcl : env.jiraClose with m | u
    · rw [recJiraBranch_closeError s env _ m hne hconf hcl]
      dsimp only
      simp only [List.mem_cons, List.mem_append]
      tauto
    · cases u
      rw [recJiraBranch_closeOk s env _ hne hconf hcl]
      dsimp only
      simp only [List.mem_cons, List.mem_append]
      tauto
  · intro hne0 hconf
    have hne : (db.tickets.filter (fun t => t.change_id == e.change_id)).isEmpty
        = false := by
      rcases hh : db.tickets.filter (fun t => t.change_id == e.change_id) with
        _ | ⟨x, xs⟩
      · exact absurd hh hne0
      · rw [hh]
        rfl
    rcases hcl : env.jiraClose with m | u
    · simp [recClaimAndDeliver,
        recJiraBranch_closeError s env _ m hne hconf hcl]
    · cases u
      simp [recClaimAndDeliver, recJiraBranch_closeOk s env _ hne hconf hcl]
  · intro hconf hcl hslc hss hscl
    rcases hh : db.tickets.filter (fun t => t.change_id == e.change_id) with
      _ | ⟨x, xs⟩
    · simp [recClaimAndDeliver, hh, recJiraBranch_nil,
        recSlackBranch_ok s env e hslc hss hscl]
    · have hne : (db.tickets.filter (fun t => t.change_id == e.change_id)).isEmpty
          = false := by
        rw [hh]
        rfl
      simp only [recClaimAndDeliver,
        recJiraBranch_closeOk s env _ hne hconf hcl,
        recSlackBranch_ok s env e hslc hss hscl]
      rw [List.append_nil, recCommentLoop_errs]
  · intro hnil
    refine ⟨?_, ?_, ?_⟩
    · simp [recClaimAndDeliver, hnil, recJiraBranch_nil]
    · simp [recClaimAndDeliver, hnil, recJiraBranch_nil]
    · intro k hmem
      simp only [recClaimAndDeliver] at hmem
      rw [hnil, recJiraBranch_nil] at hmem
      dsimp only at hmem
      simp only [List.mem_cons, List.mem_append, List.mem_singleton] at hmem
      rcases hmem with h0 | ((((h1 | h2) | h3) | h4) | h5)
      · simp at h0
      · rcases mem_recApiCoreTrace s env _ h1 with h6 | h6 <;> simp at h6
      · rcases mem_recBillingTrace s env _ h2 with h6 | h6 <;> simp at h6
      · simp at h3
      · rcases mem_recSlackBranch_trace s env _ _ h4 with ⟨c, h6⟩ | h6 <;>
          simp at h6
      · simp at h5

/-- Witness for the amended C5: three ticket links, the comment on
`"T-2"` raises, the others succeed (Scenario D). -/
theorem claim_C5_recovery_comment_branch_witness :
    (handleRecoveryComplete settingsFix envRecOneFailFix dbThreeTicketsFix
        eventRecFix).record.map NotificationEvent.jira_sent = some true ∧
    (handleRecoveryComplete settingsFix envRecOneFailFix dbThreeTicketsFix
        eventRecFix).response.errors =
      (dbThreeTicketsFix.tickets.filter
          (fun t => t.change_id == eventRecFix.change_id)).filterMap
        (fun t =>
          match envRecOneFailFix.jiraComment t.jira_issue_key with
          | .ok _ => none
          | .error m =>
            some ("jira_comment:" ++ t.jira_issue_key ++ ": " ++ m)) := by
  have h := claim_C5_recovery_comment_branch settingsFix envRecOneFailFix
    dbThreeTicketsFix eventRecFix (by decide)
  exact ⟨h.2.1 (by decide) (by decide), h.2.2.1 (by decide) rfl (by decide) rfl rfl⟩

theorem prSlackBranch_notConfigured (s : Settings) (env : PrEnv)
    (e : PROpenedEvent) (v : Option NotificationBundle)
    (key url : Option String) (h : slackConfigured s = false) :
    prSlackBranch s env e v key url =
      { err := some (pyTruncate 500 slackNotConfiguredMsg),
        errs := ["slack: " ++ slackNotConfiguredMsg] } := by
  simp [prSlackBranch, h]

theorem prSlackBranch_closeError (s : Settings) (env : PrEnv)
    (e : PROpenedEvent) (v : Option NotificationBundle)
    (key url : Option String) (m : String)
    (h1 : slackConfigured s = true) (h2 : env.slackSend = .ok ())
    (h3 : env.slackClose = .error m) :
    prSlackBranch s env e v key url =
      { sent := true, err := some (pyTruncate 500 m),
        errs := ["slack: " ++ m],
        trace := [.slackSend
          (if hasDevinSlackContent v then
            SlackContent.fromBundle e v key url
          else SlackContent.generated e key url), .slackClose,
          .slackClose] } := by
  simp [prSlackBranch, h1, h2, h3]

theorem recSlackBranch_notConfigured (s : Settings) (env : RecEnv)
    (e : RecoveryCompleteEvent) (h : slackConfigured s = false) :
    recSlackBranch s env e =
      { err := some (pyTruncate 500 slackNotConfiguredMsg),
        errs := ["slack: " ++ slackNotConfiguredMsg] } := by
  simp [recSlackBranch, h]

theorem recSlackBranch_closeError (s : Settings) (env : RecEnv)
    (e : RecoveryCompleteEvent) (m : String)
    (h1 : slackConfigured s = true) (h2 : env.slackSend = .ok ())
    (h3 : env.slackClose = .error m) :
    recSlackBranch s env e =
      { sent := true, err := some (pyTruncate 500 m),
        errs := ["slack: " ++ m],
        trace := [.slackSend
          (SlackContent.recoveryReport e (recBillingSummary s env)),
          .slackClose, .slackClose] } := by
  simp [recSlackBranch, h1, h2, h3]

theorem recJiraBranch_notConfigured (s : Settings) (env : RecEnv)
    (ts : List JiraTicket) (hne : ts.isEmpty = false)
    (hconf : jiraConfigured s = false) :
    recJiraBranch s env ts =
      { err := some (pyTruncate 500 jiraNotConfiguredMsg),
        errs := ["jira: " ++ jiraNotConfiguredMsg] } := by
  simp [recJiraBranch, hne, hconf]

theorem isEmpty_false_of_ne_nil {α : Type} (l : List α) (h : l ≠ []) :
    l.isEmpty = false := by
  cases l with
  | nil => exact absurd rfl h
  | cons a t => rfl

/-- Claim C9: for every sink failure in either handler, the error text
stored on the event record (`jira_error` / `slack_error`) is the
exception text truncated to at most 500 characters.  The conjunction
covers every `except` site that stores to a record field in the two
handlers — `pr_opened`: missing-content guard, unconfigured
`JiraClient()`, `create_issue` raising, Jira `close()` raising after a
successful create, unconfigured `SlackClient()`, `send_message` raising,
Slack `close()` raising after a successful send; `recovery_complete`:
unconfigured `JiraClient()` with matching tickets, Jira `close()`
raising after the comment loop, unconfigured `SlackClient()`,
`send_message` raising, Slack `close()` raising — together with the
slice characterization: text of at most 500 characters is stored
unchanged, longer text as exactly its first 500 characters. -/
theorem claim_C9_stored_error_truncation :
    (∀ (s : Settings) (env : PrEnv) (db : Db) (e : PROpenedEvent),
      findEvent db (prIdemKey e) = false →
      ((hasDevinJiraContent (validateNotificationBundle e e.notification_bundle)
          = false →
        (handlePrOpened s env db e).record.bind NotificationEvent.jira_error =
          some (pyTruncate 500
            (jiraBundleError e
              (validateNotificationBundle e e.notification_bundle)))) ∧
       (hasDevinJiraContent (validateNotificationBundle e e.notification_bundle)
          = true →
        jiraConfigured s = false →
        (handlePrOpened s env db e).record.bind NotificationEvent.jira_error =
          some (pyTruncate 500 jiraNotConfiguredMsg)) ∧
       (∀ m, hasDevinJiraContent
          (validateNotificationBundle e e.notification_bundle) = true →
        jiraConfigured s = true →
        env.jiraCreate = .error m →
        (handlePrOpened s env db e).record.bind NotificationEvent.jira_error =
          some (pyTruncate 500 m)) ∧
       (∀ k m, hasDevinJiraContent
          (validateNotificationBundle e e.notification_bundle) = true →
        jiraConfigured s = true →
        env.jiraCreate = .ok k →
        env.jiraClose = .error m →
        (handlePrOpened s env db e).record.bind NotificationEvent.jira_error =
          some (pyTruncate 500 m)) ∧
       (slackConfigured s = false →
        (handlePrOpened s env db e).record.bind NotificationEvent.slack_error =
          some (pyTruncate 500 slackNotConfiguredMsg)) ∧
       (∀ m, slackConfigured s = true →
        env.slackSend = .error m →
        (handlePrOpened s env db e).record.bind NotificationEvent.slack_error =
          some (pyTruncate 500 m)) ∧
       (∀ m, slackConfigured s = true →
        env.slackSend = .ok () →
        env.slackClose = .error m →
        (handlePrOpened s env db e).record.bind NotificationEvent.slack_error =
          some (pyTruncate 500 m)))) ∧
    (∀ (s : Settings) (env : RecEnv) (db : Db) (e : RecoveryCompleteEvent),
      findEvent db (recIdemKey e) = false →
      ((db.tickets.filter (fun t => t.change_id == e.change_id) ≠ [] →
        jiraConfigured s = false →
        (handleRecoveryComplete s env db e).record.bind
            NotificationEvent.jira_error =
          some (pyTruncate 500 jiraNotConfiguredMsg)) ∧
       (∀ m, db.tickets.filter (fun t => t.change_id == e.change_id) ≠ [] →
        jiraConfigured s = true →
        env.jiraClose = .error m →
        (handleRecoveryComplete s env db e).record.bind
            NotificationEvent.jira_error = some (pyTruncate 500 m)) ∧
       (slackConfigured s = false →
        (handleRecoveryComplete s env db e).record.bind
            NotificationEvent.slack_error =
          some (pyTruncate 500 slackNotConfiguredMsg)) ∧
       (∀ m, slackConfigured s = true →
        env.slackSend = .error m →
        (handleRecoveryComplete s env db e).record.bind
            NotificationEvent.slack_error = some (pyTruncate 500 m)) ∧
       (∀ m, slackConfigured s = true →
        env.slackSend = .ok () →
        env.slackClose = .error m →
        (handleRecoveryComplete s env db e).record.bind
            NotificationEvent.slack_error = some (pyTruncate 500 m)))) ∧
    (∀ t : String, t.length ≤ 500 → pyTruncate 500 t = t) ∧
    (∀ t : String, 500 < t.length →
      (pyTruncate 500 t).length = 500 ∧
        (pyTruncate 500 t).data = t.data.take 500) := by
  refine ⟨?_, ?_, pyTruncate_of_le, pyTruncate_gt⟩
  · intro s env db e hdup
    rw [handlePrOpened_run s env db e hdup]
    refine ⟨?_, ?_, ?_, ?_, ?_, ?_, ?_⟩
    · intro hg
      simp [prClaimAndDeliver, prJiraBranch_noContent s env e _ hg]
    · intro hg hcf
      simp [prClaimAndDeliver, prJiraBranch_notConfigured s env e _ hg hcf]
    · intro m hg hcf hc
      simp [prClaimAndDeliver, prJiraBranch_createError s env e _ m hg hcf hc]
    · intro k m hg hcf hc hcl
      simp [prClaimAndDeliver,
        prJiraBranch_createOk_closeError s env e _ k m hg hcf hc hcl]
    · intro hsc
      simp [prClaimAndDeliver, prSlackBranch_notConfigured s env e _ _ _ hsc]
    · intro m hsc hss
      simp [prClaimAndDeliver, prSlackBranch_sendError s env e _ _ _ m hsc hss]
    · intro m hsc hss hscl
      simp [prClaimAndDeliver,
        prSlackBranch_closeError s env e _ _ _ m hsc hss hscl]
  · intro s env db e hdup
    rw [handleRecoveryComplete_run s env db e hdup]
    refine ⟨?_, ?_, ?_, ?_, ?_⟩
    · intro hne0 hcf
      simp [recClaimAndDeliver, recJiraBranch_notConfigured s env _
        (isEmpty_false_of_ne_nil _ hne0) hcf]
    · intro m hne0 hcf hcl
      simp [recClaimAndDeliver, recJiraBranch_closeError s env _ m
        (isEmpty_false_of_ne_nil _ hne0) hcf hcl]
    · intro hsc
      simp [recClaimAndDeliver, recSlackBranch_notConfigured s env e hsc]
    · intro m hsc hss
      simp [recClaimAndDeliver, recSlackBranch_sendError s env e m hsc hss]
    · intro m hsc hss hscl
      simp [recClaimAndDeliver, recSlackBranch_closeError s env e m hsc hss hscl]

/-- Witness for C9: concrete runs exercising a `create_issue` failure in
the `pr_opened` handler and a Jira `close()` failure after the comment
loop in the recovery handler. -/
theorem claim_C9_stored_error_truncation_witness :
    (handlePrOpened settingsFix envCreateFailFix {} eventFix).record.bind
        NotificationEvent.jira_error = some (pyTruncate 500 "boom") ∧
    (handleRecoveryComplete settingsFix
        { jiraClose := .error "late boom" } dbOneTicketFix
        eventRecFix).record.bind NotificationEvent.jira_error =
      some (pyTruncate 500 "late boom") := by
  have h := claim_C9_stored_error_truncation
  exact ⟨(h.1 settingsFix envCreateFailFix {} eventFix (by decide)).2.2.1 "boom"
      (by decide) (by decide) rfl,
    (h.2.1 settingsFix { jiraClose := .error "late boom" } dbOneTicketFix
        eventRecFix (by decide)).2.1 "late boom" (by decide) (by decide) rfl⟩

/-- Claim C10: for every sink failure in either handler, the entry
appended to the response error list carries the full, untruncated
exception text prefixed with the sink name; the 500-character truncation
applies only to the record's stored fields.  The conjunction covers
every `errors.append` site in the two handlers — `pr_opened`: guard,
unconfigured `JiraClient()`, `create_issue` raising, Jira `close()`
raising after create, unconfigured `SlackClient()`, `send_message`
raising, Slack `close()` raising after send; `recovery_complete`: each
failing per-ticket comment (namespaced `jira_comment:<id>: <message>`),
unconfigured `JiraClient()`, Jira `close()` raising, unconfigured
`SlackClient()`, `send_message` raising, Slack `close()` raising — and
for the exception-carrying sites pairs the full response entry with the
truncated stored field, so a message longer than 500 characters yields a
response entry longer than 500 while the stored field is exactly 500. -/
theorem claim_C10_response_errors_untruncated :
    (∀ (s : Settings) (env : PrEnv) (db : Db) (e : PROpenedEvent),
      findEvent db (prIdemKey e) = false →
      ((hasDevinJiraContent (validateNotificationBundle e e.notification_bundle)
          = false →
        ("jira: " ++
            jiraBundleError e
              (validateNotificationBundle e e.notification_bundle)) ∈
          (handlePrOpened s env db e).response.errors) ∧
       (hasDevinJiraContent (validateNotificationBundle e e.notification_bundle)
          = true →
        jiraConfigured s = false →
        ("jira: " ++ jiraNotConfiguredMsg) ∈
          (handlePrOpened s env db e).response.errors) ∧
       (∀ m, hasDevinJiraContent
          (validateNotificationBundle e e.notification_bundle) = true →
        jiraConfigured s = true →
        env.jiraCreate = .error m →
        (("jira: " ++ m) ∈ (handlePrOpened s env db e).response.errors ∧
         (handlePrOpened s env db e).record.bind NotificationEvent.jira_error =
           some (pyTruncate 500 m) ∧
         (500 < m.length →
           500 < ("jira: " ++ m).length ∧ (pyTruncate 500 m).length = 500))) ∧
       (∀ k m, hasDevinJiraContent
          (validateNotificationBundle e e.notification_bundle) = true →
        jiraConfigured s = true →
        env.jiraCreate = .ok k →
        env.jiraClose = .error m →
        (("jira: " ++ m) ∈ (handlePrOpened s env db e).response.errors ∧
         (handlePrOpened s env db e).record.bind NotificationEvent.jira_error =
           some (pyTruncate 500 m))) ∧
       (slackConfigured s = false →
        ("slack: " ++ slackNotConfiguredMsg) ∈
          (handlePrOpened s env db e).response.errors) ∧
       (∀ m, slackConfigured s = true →
        env.slackSend = .error m →
        (("slack: " ++ m) ∈ (handlePrOpened s env db e).response.errors ∧
         (handlePrOpened s env db e).record.bind NotificationEvent.slack_error =
           some (pyTruncate 500 m) ∧
         (500 < m.length →
           500 < ("slack: " ++ m).length ∧
             (pyTruncate 500 m).length = 500))) ∧
       (∀ m, slackConfigured s = true →
        env.slackSend = .ok () →
        env.slackClose = .error m →
        (("slack: " ++ m) ∈ (handlePrOpened s env db e).response.errors ∧
         (handlePrOpened s env db e).record.bind NotificationEvent.slack_error =
           some (pyTruncate 500 m))))) ∧
    (∀ (s : Settings) (env : RecEnv) (db : Db) (e : RecoveryCompleteEvent),
      findEvent db (recIdemKey e) = false →
      ((∀ t m, t ∈ db.tickets.filter (fun t => t.change_id == e.change_id) →
        jiraConfigured s = true →
        env.jiraComment t.jira_issue_key = .error m →
        (("jira_comment:" ++ t.jira_issue_key ++ ": " ++ m) ∈
           (handleRecoveryComplete s env db e).response.errors ∧
         (500 < m.length →
           500 < ("jira_comment:" ++ t.jira_issue_key ++ ": " ++ m).length))) ∧
       (db.tickets.filter (fun t => t.change_id == e.change_id) ≠ [] →
        jiraConfigured s = false →
        ("jira: " ++ jiraNotConfiguredMsg) ∈
          (handleRecoveryComplete s env db e).response.errors) ∧
       (∀ m, db.tickets.filter (fun t => t.change_id == e.change_id) ≠ [] →
        jiraConfigured s = true →
        env.jiraClose = .error m →
        ("jira: " ++ m) ∈
          (handleRecoveryComplete s env db e).response.errors) ∧
       (slackConfigured s = false →
        ("slack: " ++ slackNotConfiguredMsg) ∈
          (handleRecoveryComplete s env db e).response.errors) ∧
       (∀ m, slackConfigured s = true →
        env.slackSend = .error m →
        (("slack: " ++ m) ∈
           (handleRecoveryComplete s env db e).response.errors ∧
         (handleRecoveryComplete s env db e).record.bind
             NotificationEvent.slack_error = some (pyTruncate 500 m) ∧
         (500 < m.length →
           500 < ("slack: " ++ m).length ∧
             (pyTruncate 500 m).length = 500))) ∧
       (∀ m, slackConfigured s = true →
        env.slackSend = .ok () →
        env.slackClose = .error m →
        ("slack: " ++ m) ∈
          (handleRecoveryComplete s env db e).response.errors))) := by
  constructor
  · intro s env db e hdup
    rw [handlePrOpened_run s env db e hdup]
    refine ⟨?_, ?_, ?_, ?_, ?_, ?_, ?_⟩
    · intro hg
      simp [prClaimAndDeliver, prJiraBranch_noContent s env e _ hg]
    · intro hg hcf
      simp [prClaimAndDeliver, prJiraBranch_notConfigured s env e _ hg hcf]
    · intro m hg hcf hc
      refine ⟨?_, ?_, ?_⟩
      · simp [prClaimAndDeliver, prJiraBranch_createError s env e _ m hg hcf hc]
      · simp [prClaimAndDeliver, prJiraBranch_createError s env e _ m hg hcf hc]
      · intro hlen
        refine ⟨?_, (pyTruncate_gt m hlen).1⟩
        rw [String.length_append]
        omega
    · intro k m hg hcf hc hcl
      constructor
      · simp [prClaimAndDeliver,
          prJiraBranch_createOk_closeError s env e _ k m hg hcf hc hcl]
      · simp [prClaimAndDeliver,
          prJiraBranch_createOk_closeError s env e _ k m hg hcf hc hcl]
    · intro hsc
      simp [prClaimAndDeliver, prSlackBranch_notConfigured s env e _ _ _ hsc]
    · intro m hsc hss
      refine ⟨?_, ?_, ?_⟩
      · simp [prClaimAndDeliver,
          prSlackBranch_sendError s env e _ _ _ m hsc hss]
      · simp [prClaimAndDeliver,
          prSlackBranch_sendError s env e _ _ _ m hsc hss]
      · intro hlen
        refine ⟨?_, (pyTruncate_gt m hlen).1⟩
        rw [String.length_append]
        omega
    · intro m hsc hss hscl
      constructor
      · simp [prClaimAndDeliver,
          prSlackBranch_closeError s env e _ _ _ m hsc hss hscl]
      · simp [prClaimAndDeliver,
          prSlackBranch_closeError s env e _ _ _ m hsc hss hscl]
  · intro s env db e hdup
    rw [handleRecoveryComplete_run s env db e hdup]
    refine ⟨?_, ?_, ?_, ?_, ?_, ?_⟩
    · intro t m ht hconf hcm
      have hne : (db.tickets.filter
          (fun t => t.change_id == e.change_id)).isEmpty = false := by
        refine isEmpty_false_of_ne_nil _ ?_
        intro hnil
        rw [hnil] at ht
        simp at ht
      have hloop : ("jira_comment:" ++ t.jira_issue_key ++ ": " ++ m) ∈
          (recCommentLoop env
            (db.tickets.filter (fun t => t.change_id == e.change_id))).1 := by
        rw [recCommentLoop_errs]
        refine List.mem_filterMap.mpr ⟨t, ht, ?_⟩
        rw [hcm]
      constructor
      · rcases hcl : env.jiraClose with m2 | u
        · simp only [recClaimAndDeliver,
            recJiraBranch_closeError s env _ m2 hne hconf hcl]
          exact List.mem_append_left _ (List.mem_append_left _ hloop)
        · cases u
          simp only [recClaimAndDeliver,
            recJiraBranch_closeOk s env _ hne hconf hcl]
          exact List.mem_append_left _ hloop
      · intro hlen
        rw [String.length_append]
        omega
    · intro hne0 hcf
      simp [recClaimAndDeliver, recJiraBranch_notConfigured s env _
        (isEmpty_false_of_ne_nil _ hne0) hcf]
    · intro m hne0 hcf hcl
      simp only [recClaimAndDeliver, recJiraBranch_closeError s env _ m
        (isEmpty_false_of_ne_nil _ hne0) hcf hcl]
      refine List.mem_append_left _ (List.mem_append_right _ ?_)
      exact List.mem_singleton.mpr rfl
    · intro hsc
      simp [recClaimAndDeliver, recSlackBranch_notConfigured s env e hsc]
    · intro m hsc hss
      refine ⟨?_, ?_, ?_⟩
      · simp [recClaimAndDeliver, recSlackBranch_sendError s env e m hsc hss]
      · simp [recClaimAndDeliver, recSlackBranch_sendError s env e m hsc hss]
      · intro hlen
        refine ⟨?_, (pyTruncate_gt m hlen).1⟩
        rw [String.length_append]
        omega
    · intro m hsc hss hscl
      simp [recClaimAndDeliver,
        recSlackBranch_closeError s env e m hsc hss hscl]

/-- Witness for C10: a failing `create_issue` in the `pr_opened` handler
and a failing per-ticket comment in the recovery handler. -/
theorem claim_C10_response_errors_untruncated_witness :
    ("jira: " ++ "boom") ∈
      (handlePrOpened settingsFix envCreateFailFix {} eventFix).response.errors ∧
    ("jira_comment:" ++ "T-1" ++ ": " ++ "boom") ∈
      (handleRecoveryComplete settingsFix envRecAllFailFix dbOneTicketFix
        eventRecFix).response.errors := by
  have h := claim_C10_response_errors_untruncated
  refine ⟨((h.1 settingsFix envCreateFailFix {} eventFix (by decide)).2.2.1
    "boom" (by decide) (by decide) rfl).1, ?_⟩
  exact ((h.2 settingsFix envRecAllFailFix dbOneTicketFix eventRecFix
    (by decide)).1 (ticketFix "T-1") "boom" (by decide) (by decide) rfl).1
